import Mathlib

/-!
# SineRunner: the per-tick simulation of `sinerunner.cpp`

A shallow embedding of the game state of `SineRunnerMoblet` and of the member
functions that drive the simulation (`pointerPressEvent`, `pointerReleaseEvent`,
`customEvent`, `runTimerEvent`, `reset`, `draw`), followed by theorems about them.

Modelling conventions

* `GLfloat`/`double` quantities are rationals (`ℚ`) with exact arithmetic; the
  literals `0.1`, `0.04`, `3.5`, `0.01` are `1/10`, `1/25`, `7/2`, `1/100`.
  Rounding is not modelled.
* `sin` is a parameter `sinF : ℚ → ℚ` of every function that calls it; the
  general theorems hold for every choice of `sinF`. Statements about one
  concrete run fix `sinF` to `zeroSin`.
* `mTime` is a `GLuint`: a natural number, incremented modulo `2^32`.
  `mNumTicks`, `mHitTick`, `mJumpTick` (`long`) and `mHitTimes` (`int`) are
  integers; signed overflow is undefined in C++ and is not modelled.
* `rand()` is an input `r : ℕ` of each call of `draw`. `10 % rand()` divides by
  zero when `r = 0`; `draw` then has no result (`none`).
* The constructor leaves `mHitTick`, `mJumpTick`, `mTouchPoint`,
  `mCurvePoints` and `mEnemyPoints` unassigned: they are parameters of the
  initial state.
* OpenGL calls are not modelled, except that the index of the texture handle
  bound by `draw` is recorded in `boundTexture`, so that the branch taken by the
  texture selection can be observed.
-/

namespace SineRunner

/-- Screen point of a pointer event (`MAPoint2d`). -/
structure MAPoint2d where
  x : Int
  y : Int

/-- The instance variables of `SineRunnerMoblet` used by the simulation.
`mScreenIsPressed` is declared `GLfloat` in the source but only ever holds
`true` or `false`; it is a `Bool` here. `boundTexture` is the index `k` of the
last `glBindTexture(GL_TEXTURE_2D, mBoxTextureHandle[k])`. -/
structure SineRunnerMoblet where
  mGLViewInitialized : Bool
  mXRes : Nat
  mYRes : Nat
  mX : ℚ
  mY : ℚ
  mTime : Nat
  mCPos : ℚ
  mCYPos : ℚ
  mMaxPoint : ℚ
  mScreenIsPressed : Bool
  mCurvePoints : Nat → ℚ × ℚ
  mEnemyPoints : Nat → ℚ × ℚ
  mTouchPoint : MAPoint2d
  mHit : Bool
  mHitTimes : Int
  inAir : Bool
  mDead : Bool
  mFinished : Bool
  mNumTicks : Int
  mHitTick : Int
  mJumpTick : Int
  boundTexture : Nat

/-- The member `mCPosStart`: assigned `-100.0` in the constructor (line 76) and
never written again. -/
def mCPosStart : ℚ := -100

/-- The local `curveLen` of `draw` (line 424). -/
def curveLen : ℚ := 1 / 100

/-- The expression `mXRes*sin(x)/3.5 + mXRes/2.0` (lines 422, 439, 452). -/
def sineFormula (sinF : ℚ → ℚ) (xRes : Nat) (x : ℚ) : ℚ :=
  (xRes : ℚ) * sinF x / (7 / 2) + (xRes : ℚ) / 2

/-- State left by the constructor (lines 64-124). The arguments are the screen
size and the members the constructor does not assign. -/
def construct (xRes yRes : Nat) (hitTick jumpTick : Int) (touch : MAPoint2d)
    (curve enemy : Nat → ℚ × ℚ) : SineRunnerMoblet :=
  { mGLViewInitialized := false
    mXRes := xRes
    mYRes := yRes
    mX := 0
    mY := 0
    mTime := 0
    mCPos := mCPosStart
    mCYPos := 0
    mMaxPoint := 0
    mScreenIsPressed := false
    mCurvePoints := curve
    mEnemyPoints := enemy
    mTouchPoint := touch
    mHit := false
    mHitTimes := 0
    inAir := false
    mDead := false
    mFinished := false
    mNumTicks := 0
    mHitTick := hitTick
    mJumpTick := jumpTick
    boundTexture := 0 }

/-- The function `reset()` (lines 341-351). -/
def reset (s : SineRunnerMoblet) : SineRunnerMoblet :=
  { s with
    mCPos := mCPosStart
    mX := 0
    mTime := 0
    mDead := false
    mFinished := false
    mHitTick := 0
    mHitTimes := 0
    inAir := false }

/-- The function `pointerPressEvent` (lines 142-154). -/
def pointerPressEvent (s : SineRunnerMoblet) (point : MAPoint2d) : SineRunnerMoblet :=
  let s1 := { s with mTouchPoint := point, mScreenIsPressed := true }
  let s2 := if s1.mDead then reset s1 else s1
  if s2.mFinished then reset s2 else s2

/-- The function `pointerReleaseEvent` (lines 156-166). -/
def pointerReleaseEvent (s : SineRunnerMoblet) (point : MAPoint2d) : SineRunnerMoblet :=
  let s1 :=
    if (point.y : ℚ) > (s.mYRes : ℚ) / 2 then s
    else if !s.inAir then { s with mJumpTick := s.mNumTicks } else s
  { s1 with mScreenIsPressed := false }

/-- Jump arc of `draw` (lines 377-385). -/
def jumpArc (s : SineRunnerMoblet) : SineRunnerMoblet :=
  if s.mJumpTick + 8 > s.mNumTicks then
    { s with inAir := true, mCYPos := s.mCYPos - 18 }
  else if s.mJumpTick + 16 > s.mNumTicks then
    { s with mCYPos := s.mCYPos + 18 }
  else
    { s with inAir := false, mCYPos := 0 }

/-- Texture selection of `draw` (lines 400-415): the priority chain
hit cooldown, dead, finished, normal run, launch throttle. -/
def selectTexture (s : SineRunnerMoblet) : SineRunnerMoblet :=
  if s.mHitTick + 5 > s.mNumTicks then
    { s with boundTexture := 1 }
  else if s.mHitTimes > 4 then
    { s with mDead := true, boundTexture := 2 }
  else if s.mCPos + 400 - 22 > s.mMaxPoint then
    { s with mFinished := true, boundTexture := 3 }
  else if s.mTime > 900 then
    { s with boundTexture := 0 }
  else
    { s with mCPos := mCPosStart, boundTexture := 4 }

/-- Curve sample of `draw` (lines 418-435): `++mTime`, `mX += 0.1`, the new
sample, the running maximum and the ring-buffer write. -/
def advanceCurve (sinF : ℚ → ℚ) (s : SineRunnerMoblet) : SineRunnerMoblet :=
  let t := (s.mTime + 1) % 2 ^ 32
  let x := s.mX + 1 / 10
  let y := sineFormula sinF s.mXRes x
  let point : ℚ × ℚ := (y, x / curveLen)
  { s with
    mTime := t
    mX := x
    mY := y
    mMaxPoint := if point.1 > s.mMaxPoint then point.1 else s.mMaxPoint
    mCurvePoints := Function.update s.mCurvePoints (t % 1600) point }

/-- The local `ox` of `draw` (line 438), `(10%rand())*mTime + 50` in unsigned
32-bit arithmetic, for a draw `r ≠ 0`. -/
def enemyHorizontal (r : Nat) (time : Nat) : ℚ :=
  (((10 % r) * time + 50) % 2 ^ 32 : Nat)

/-- Obstacle placement of `draw` (lines 437-447), run after `++mTime`. -/
def placeEnemy (sinF : ℚ → ℚ) (s : SineRunnerMoblet) (r : Nat) : SineRunnerMoblet :=
  let ox := enemyHorizontal r s.mTime
  let oy := sineFormula sinF s.mXRes ox
  let oPoint : ℚ × ℚ := (oy, ox / curveLen)
  if s.mTime < 100 ∧ s.mTime > 0 then
    { s with mEnemyPoints := Function.update s.mEnemyPoints (s.mTime % 100) oPoint }
  else s

/-- The local `cPoint` of `draw` (lines 451-456). -/
def characterPoint (sinF : ℚ → ℚ) (s : SineRunnerMoblet) : ℚ × ℚ :=
  let cx := s.mX + s.mCPos
  let cy := sineFormula sinF s.mXRes cx + s.mCYPos
  (cy, cx / curveLen)

/-- One iteration of the collision loop (lines 493-498). -/
def collideSlot (cPoint : ℚ × ℚ) (s : SineRunnerMoblet) (i : Nat) : SineRunnerMoblet :=
  if (s.mEnemyPoints i).1 - cPoint.1 < 5 ∧ (s.mEnemyPoints i).1 - cPoint.1 > -5 then
    if (s.mEnemyPoints i).2 - cPoint.2 < 5 ∧ (s.mEnemyPoints i).2 - cPoint.2 > -5 then
      { s with mHitTick := s.mNumTicks, mHitTimes := s.mHitTimes + 1 }
    else s
  else s

/-- The collision loop of `draw` (lines 492-499), `i` from 0 to 99. -/
def collisionCheck (s : SineRunnerMoblet) (cPoint : ℚ × ℚ) : SineRunnerMoblet :=
  (List.range 100).foldl (collideSlot cPoint) s

/-- The body of `draw` after the early return and for a draw `r ≠ 0`. -/
def drawBody (sinF : ℚ → ℚ) (s : SineRunnerMoblet) (r : Nat) : SineRunnerMoblet :=
  let s1 := jumpArc s
  let s2 := selectTexture s1
  let s3 := advanceCurve sinF s2
  let s4 := placeEnemy sinF s3 r
  collisionCheck s4 (characterPoint sinF s4)

/-- The function `draw()` (lines 356-527). `r` is the value `rand()` returns;
`10 % rand()` is undefined for `r = 0`. -/
def draw (sinF : ℚ → ℚ) (s : SineRunnerMoblet) (r : Nat) : Option SineRunnerMoblet :=
  if !s.mGLViewInitialized then some s
  else if r = 0 then none
  else some (drawBody sinF s r)

/-- The held-press update of `runTimerEvent` (lines 219-224). -/
def holdMove (s : SineRunnerMoblet) : SineRunnerMoblet :=
  if s.mScreenIsPressed then
    if (s.mTouchPoint.y : ℚ) < (s.mYRes : ℚ) / 2 then { s with mCPos := s.mCPos + 1 / 25 }
    else { s with mCPos := s.mCPos - 1 / 25 }
  else s

/-- The state of `runTimerEvent` after `++mNumTicks` (line 226), in which the
terminal flags are tested and `draw` is entered. -/
def beforeDraw (s : SineRunnerMoblet) : SineRunnerMoblet :=
  { holdMove s with mNumTicks := (holdMove s).mNumTicks + 1 }

/-- The function `runTimerEvent()` (lines 216-233). -/
def runTimerEvent (sinF : ℚ → ℚ) (s : SineRunnerMoblet) (r : Nat) : Option SineRunnerMoblet :=
  if !(beforeDraw s).mFinished && !(beforeDraw s).mDead then draw sinF (beforeDraw s) r
  else some (beforeDraw s)

/-- The function `customEvent` for the event `MAW_EVENT_GL_VIEW_READY`
(lines 174-211): the view is flagged ready and the first scene is drawn. -/
def customEvent (sinF : ℚ → ℚ) (s : SineRunnerMoblet) (r : Nat) : Option SineRunnerMoblet :=
  draw sinF { s with mGLViewInitialized := true } r

/-- The events the moblet receives. `glViewReady` and `timer` carry the value
that `rand()` returns if `draw` reaches line 438. -/
inductive Event where
  | glViewReady (r : Nat)
  | timer (r : Nat)
  | press (point : MAPoint2d)
  | release (point : MAPoint2d)

/-- Dispatch of one event to its handler. -/
def step (sinF : ℚ → ℚ) (s : SineRunnerMoblet) : Event → Option SineRunnerMoblet
  | .glViewReady r => customEvent sinF s r
  | .timer r => runTimerEvent sinF s r
  | .press p => some (pointerPressEvent s p)
  | .release p => some (pointerReleaseEvent s p)

/-- A run: the events are handled one after the other. -/
def run (sinF : ℚ → ℚ) (s : SineRunnerMoblet) : List Event → Option SineRunnerMoblet
  | [] => some s
  | e :: es => (step sinF s e).bind fun s1 => run sinF s1 es

/-- Both coordinate differences `e - c` lie strictly between `-5` and `5`. -/
def withinFive (e c : ℚ × ℚ) : Bool :=
  decide ((-5 < e.1 - c.1 ∧ e.1 - c.1 < 5) ∧ (-5 < e.2 - c.2 ∧ e.2 - c.2 < 5))

/-- Number of obstacle slots `0..99` whose value difference and whose position
difference from `cPoint` both lie strictly between `-5` and `5`. -/
def qualifyingSlots (enemy : Nat → ℚ × ℚ) (cPoint : ℚ × ℚ) : Nat :=
  ((List.range 100).filter fun i => withinFive (enemy i) cPoint).length

/-- The state in which `draw` enters its collision loop: after the jump arc,
the texture selection, the curve sample and the obstacle placement. -/
def beforeCollision (sinF : ℚ → ℚ) (s : SineRunnerMoblet) (r : Nat) : SineRunnerMoblet :=
  placeEnemy sinF (advanceCurve sinF (selectTexture (jumpArc s))) r

/-- A stand-in for `sin` in concrete runs: constantly `0` (exact at the
argument 0). The concrete runs below are chosen so that the branches taken do
not depend on it: they are the same for every function bounded by 1. -/
def zeroSin : ℚ → ℚ := fun _ => 0

/-! ## Concrete states used in the examples -/

/-- A concrete state in mid-game: a 1440 x 2560 screen, view ready, 20 ticks
after start, player grounded at the launch line, no obstacle near. -/
def midGame : SineRunnerMoblet :=
  { construct 1440 2560 0 0 ⟨0, 0⟩ (fun _ => (0, 0)) (fun _ => (0, 0)) with
    mGLViewInitialized := true
    mX := 21 / 10
    mY := 720
    mTime := 21
    mMaxPoint := 720
    mNumTicks := 20
    boundTexture := 4 }

/-- The state `midGame` with the player dead while the screen is still held
pressed in its upper half. -/
def deadHeld : SineRunnerMoblet :=
  { midGame with mDead := true, mHitTimes := 5, mScreenIsPressed := true, mTouchPoint := ⟨10, 10⟩ }

/-- A concrete state with four hits so far, in which the next tick puts the
player on the obstacle of slot 5: after `mX += 0.1` the player is at
`cx = 100 - 100 = 0`, where the sine term vanishes. -/
def fourHits : SineRunnerMoblet :=
  { midGame with
    mX := 999 / 10
    mTime := 999
    mNumTicks := 998
    mHitTimes := 4
    mEnemyPoints := Function.update (fun _ => (0, 0)) 5 (720, 0) }

/-- The state left by the constructor on a 320 x 480 screen when the members it
does not assign hold zeros. -/
def smallScreen : SineRunnerMoblet :=
  construct 320 480 0 0 ⟨0, 0⟩ (fun _ => (0, 0)) (fun _ => (0, 0))

/-- The state left by the constructor on a 1440 x 2560 screen when the members
it does not assign hold zeros. -/
def largeScreen : SineRunnerMoblet :=
  construct 1440 2560 0 0 ⟨0, 0⟩ (fun _ => (0, 0)) (fun _ => (0, 0))

/-- The state `midGame` 150 ticks into the game, past the obstacle window. -/
def lateGame : SineRunnerMoblet :=
  { midGame with mX := 15, mTime := 150, mNumTicks := 149 }

/-- The first events of a game without input: the view-ready draw and 20 timer
ticks, every `rand()` returning 1. -/
def warmUp : List Event :=
  Event.glViewReady 1 :: List.replicate 20 (Event.timer 1)

/-- No press event of the run arrives while the player is dead or finished:
the run performs no `reset()`. -/
def noReset (sinF : ℚ → ℚ) : SineRunnerMoblet → List Event → Bool
  | _, [] => true
  | s, e :: es =>
    (match e with
      | Event.press _ => !s.mDead && !s.mFinished
      | _ => true) &&
    (match step sinF s e with
      | some s1 => noReset sinF s1 es
      | none => true)

/-- The states of the run on a 1440 pixel wide screen in which every `rand()`
returns 1 and no pointer event arrives, described by the value `n` of `mTime`:
the player stays at the launch offset, every obstacle written so far sits at
`ox = 50`, nothing is hit before `mTime = 1500`, where the player reaches
`cx = 50`, and the player is dead from `mTime = 1505` on. -/
structure Quiet (sinF : ℚ → ℚ) (n : Nat) (s : SineRunnerMoblet) : Prop where
  gl : s.mGLViewInitialized = true
  xres : s.mXRes = 1440
  fin : s.mFinished = false
  pressed : s.mScreenIsPressed = false
  time : s.mTime = n
  xpos : s.mX = (n : ℚ) / 10
  ticks : s.mNumTicks = (n : Int) - 1
  cpos : s.mCPos = -100
  jump : s.mJumpTick = 0
  maxp : 278 ≤ s.mMaxPoint
  grounded : 17 ≤ n → s.mCYPos = 0
  enemy : ∀ i, s.mEnemyPoints i = (0, 0) ∨ (s.mEnemyPoints i).2 = 5000
  placed : ∀ i, 1 ≤ i → i ≤ n → i ≤ 99 → s.mEnemyPoints i = (sineFormula sinF 1440 50, 5000)
  before : n ≤ 1499 → s.mHitTimes = 0 ∧ s.mHitTick = 0 ∧ s.mDead = false
  after : 1500 ≤ n → 5 ≤ s.mHitTimes ∧ s.mHitTick = 1499 ∧ (s.mDead = true ↔ 1505 ≤ n)

/-! ## The collision loop in closed form -/

theorem collideSlot_eq (cPoint : ℚ × ℚ) (s : SineRunnerMoblet) (i : Nat) :
    collideSlot cPoint s i =
      if withinFive (s.mEnemyPoints i) cPoint = true then
        { s with mHitTick := s.mNumTicks, mHitTimes := s.mHitTimes + 1 }
      else s := by
  unfold collideSlot withinFive
  by_cases h1 : (s.mEnemyPoints i).1 - cPoint.1 < 5 ∧ (s.mEnemyPoints i).1 - cPoint.1 > -5
  · by_cases h2 : (s.mEnemyPoints i).2 - cPoint.2 < 5 ∧ (s.mEnemyPoints i).2 - cPoint.2 > -5
    · rw [if_pos h1, if_pos h2, if_pos]
      exact decide_eq_true ⟨⟨h1.2, h1.1⟩, ⟨h2.2, h2.1⟩⟩
    · rw [if_pos h1, if_neg h2, if_neg]
      intro h
      have h3 := of_decide_eq_true h
      exact h2 ⟨h3.2.2, h3.2.1⟩
  · rw [if_neg h1, if_neg]
    intro h
    have h3 := of_decide_eq_true h
    exact h1 ⟨h3.1.2, h3.1.1⟩

theorem foldl_collideSlot (cPoint : ℚ × ℚ) (l : List Nat) (s : SineRunnerMoblet) :
    l.foldl (collideSlot cPoint) s =
      { s with
        mHitTimes := s.mHitTimes + ((l.filter fun i => withinFive (s.mEnemyPoints i) cPoint).length : Nat)
        mHitTick := if 0 < (l.filter fun i => withinFive (s.mEnemyPoints i) cPoint).length
          then s.mNumTicks else s.mHitTick } := by
  induction l generalizing s with
  | nil => simp
  | cons i l ih =>
    rw [List.foldl_cons, ih, collideSlot_eq]
    cases h : withinFive (s.mEnemyPoints i) cPoint
    · simp [h]
    · simp [h]
      omega

theorem collisionCheck_eq (s : SineRunnerMoblet) (cPoint : ℚ × ℚ) :
    collisionCheck s cPoint =
      { s with
        mHitTimes := s.mHitTimes + (qualifyingSlots s.mEnemyPoints cPoint : Nat)
        mHitTick := if 0 < qualifyingSlots s.mEnemyPoints cPoint then s.mNumTicks else s.mHitTick } :=
  foldl_collideSlot cPoint (List.range 100) s

/-! ## Frame lemmas: the members each part of a tick leaves alone -/

@[simp] theorem holdMove_mGLViewInitialized (s : SineRunnerMoblet) :
    (holdMove s).mGLViewInitialized = s.mGLViewInitialized := by
  unfold holdMove; split_ifs <;> rfl

@[simp] theorem holdMove_mXRes (s : SineRunnerMoblet) :
    (holdMove s).mXRes = s.mXRes := by
  unfold holdMove; split_ifs <;> rfl

@[simp] theorem holdMove_mX (s : SineRunnerMoblet) :
    (holdMove s).mX = s.mX := by
  unfold holdMove; split_ifs <;> rfl

@[simp] theorem holdMove_mTime (s : SineRunnerMoblet) :
    (holdMove s).mTime = s.mTime := by
  unfold holdMove; split_ifs <;> rfl

@[simp] theorem holdMove_mCYPos (s : SineRunnerMoblet) :
    (holdMove s).mCYPos = s.mCYPos := by
  unfold holdMove; split_ifs <;> rfl

@[simp] theorem holdMove_mMaxPoint (s : SineRunnerMoblet) :
    (holdMove s).mMaxPoint = s.mMaxPoint := by
  unfold holdMove; split_ifs <;> rfl

@[simp] theorem holdMove_mScreenIsPressed (s : SineRunnerMoblet) :
    (holdMove s).mScreenIsPressed = s.mScreenIsPressed := by
  unfold holdMove; split_ifs <;> rfl

@[simp] theorem holdMove_mCurvePoints (s : SineRunnerMoblet) :
    (holdMove s).mCurvePoints = s.mCurvePoints := by
  unfold holdMove; split_ifs <;> rfl

@[simp] theorem holdMove_mEnemyPoints (s : SineRunnerMoblet) :
    (holdMove s).mEnemyPoints = s.mEnemyPoints := by
  unfold holdMove; split_ifs <;> rfl

@[simp] theorem holdMove_mHitTimes (s : SineRunnerMoblet) :
    (holdMove s).mHitTimes = s.mHitTimes := by
  unfold holdMove; split_ifs <;> rfl

@[simp] theorem holdMove_mDead (s : SineRunnerMoblet) :
    (holdMove s).mDead = s.mDead := by
  unfold holdMove; split_ifs <;> rfl

@[simp] theorem holdMove_mFinished (s : SineRunnerMoblet) :
    (holdMove s).mFinished = s.mFinished := by
  unfold holdMove; split_ifs <;> rfl

@[simp] theorem holdMove_mNumTicks (s : SineRunnerMoblet) :
    (holdMove s).mNumTicks = s.mNumTicks := by
  unfold holdMove; split_ifs <;> rfl

@[simp] theorem holdMove_mHitTick (s : SineRunnerMoblet) :
    (holdMove s).mHitTick = s.mHitTick := by
  unfold holdMove; split_ifs <;> rfl

@[simp] theorem holdMove_mJumpTick (s : SineRunnerMoblet) :
    (holdMove s).mJumpTick = s.mJumpTick := by
  unfold holdMove; split_ifs <;> rfl

@[simp] theorem holdMove_boundTexture (s : SineRunnerMoblet) :
    (holdMove s).boundTexture = s.boundTexture := by
  unfold holdMove; split_ifs <;> rfl

@[simp] theorem jumpArc_mGLViewInitialized (s : SineRunnerMoblet) :
    (jumpArc s).mGLViewInitialized = s.mGLViewInitialized := by
  unfold jumpArc; split_ifs <;> rfl

@[simp] theorem jumpArc_mXRes (s : SineRunnerMoblet) :
    (jumpArc s).mXRes = s.mXRes := by
  unfold jumpArc; split_ifs <;> rfl

@[simp] theorem jumpArc_mX (s : SineRunnerMoblet) :
    (jumpArc s).mX = s.mX := by
  unfold jumpArc; split_ifs <;> rfl

@[simp] theorem jumpArc_mTime (s : SineRunnerMoblet) :
    (jumpArc s).mTime = s.mTime := by
  unfold jumpArc; split_ifs <;> rfl

@[simp] theorem jumpArc_mCPos (s : SineRunnerMoblet) :
    (jumpArc s).mCPos = s.mCPos := by
  unfold jumpArc; split_ifs <;> rfl

@[simp] theorem jumpArc_mMaxPoint (s : SineRunnerMoblet) :
    (jumpArc s).mMaxPoint = s.mMaxPoint := by
  unfold jumpArc; split_ifs <;> rfl

@[simp] theorem jumpArc_mScreenIsPressed (s : SineRunnerMoblet) :
    (jumpArc s).mScreenIsPressed = s.mScreenIsPressed := by
  unfold jumpArc; split_ifs <;> rfl

@[simp] theorem jumpArc_mCurvePoints (s : SineRunnerMoblet) :
    (jumpArc s).mCurvePoints = s.mCurvePoints := by
  unfold jumpArc; split_ifs <;> rfl

@[simp] theorem jumpArc_mEnemyPoints (s : SineRunnerMoblet) :
    (jumpArc s).mEnemyPoints = s.mEnemyPoints := by
  unfold jumpArc; split_ifs <;> rfl

@[simp] theorem jumpArc_mHitTimes (s : SineRunnerMoblet) :
    (jumpArc s).mHitTimes = s.mHitTimes := by
  unfold jumpArc; split_ifs <;> rfl

@[simp] theorem jumpArc_mDead (s : SineRunnerMoblet) :
    (jumpArc s).mDead = s.mDead := by
  unfold jumpArc; split_ifs <;> rfl

@[simp] theorem jumpArc_mFinished (s : SineRunnerMoblet) :
    (jumpArc s).mFinished = s.mFinished := by
  unfold jumpArc; split_ifs <;> rfl

@[simp] theorem jumpArc_mNumTicks (s : SineRunnerMoblet) :
    (jumpArc s).mNumTicks = s.mNumTicks := by
  unfold jumpArc; split_ifs <;> rfl

@[simp] theorem jumpArc_mHitTick (s : SineRunnerMoblet) :
    (jumpArc s).mHitTick = s.mHitTick := by
  unfold jumpArc; split_ifs <;> rfl

@[simp] theorem jumpArc_mJumpTick (s : SineRunnerMoblet) :
    (jumpArc s).mJumpTick = s.mJumpTick := by
  unfold jumpArc; split_ifs <;> rfl

@[simp] theorem jumpArc_boundTexture (s : SineRunnerMoblet) :
    (jumpArc s).boundTexture = s.boundTexture := by
  unfold jumpArc; split_ifs <;> rfl

@[simp] theorem selectTexture_mGLViewInitialized (s : SineRunnerMoblet) :
    (selectTexture s).mGLViewInitialized = s.mGLViewInitialized := by
  unfold selectTexture; split_ifs <;> rfl

@[simp] theorem selectTexture_mXRes (s : SineRunnerMoblet) :
    (selectTexture s).mXRes = s.mXRes := by
  unfold selectTexture; split_ifs <;> rfl

@[simp] theorem selectTexture_mX (s : SineRunnerMoblet) :
    (selectTexture s).mX = s.mX := by
  unfold selectTexture; split_ifs <;> rfl

@[simp] theorem selectTexture_mTime (s : SineRunnerMoblet) :
    (selectTexture s).mTime = s.mTime := by
  unfold selectTexture; split_ifs <;> rfl

@[simp] theorem selectTexture_mCYPos (s : SineRunnerMoblet) :
    (selectTexture s).mCYPos = s.mCYPos := by
  unfold selectTexture; split_ifs <;> rfl

@[simp] theorem selectTexture_mMaxPoint (s : SineRunnerMoblet) :
    (selectTexture s).mMaxPoint = s.mMaxPoint := by
  unfold selectTexture; split_ifs <;> rfl

@[simp] theorem selectTexture_mScreenIsPressed (s : SineRunnerMoblet) :
    (selectTexture s).mScreenIsPressed = s.mScreenIsPressed := by
  unfold selectTexture; split_ifs <;> rfl

@[simp] theorem selectTexture_mCurvePoints (s : SineRunnerMoblet) :
    (selectTexture s).mCurvePoints = s.mCurvePoints := by
  unfold selectTexture; split_ifs <;> rfl

@[simp] theorem selectTexture_mEnemyPoints (s : SineRunnerMoblet) :
    (selectTexture s).mEnemyPoints = s.mEnemyPoints := by
  unfold selectTexture; split_ifs <;> rfl

@[simp] theorem selectTexture_mHitTimes (s : SineRunnerMoblet) :
    (selectTexture s).mHitTimes = s.mHitTimes := by
  unfold selectTexture; split_ifs <;> rfl

@[simp] theorem selectTexture_mNumTicks (s : SineRunnerMoblet) :
    (selectTexture s).mNumTicks = s.mNumTicks := by
  unfold selectTexture; split_ifs <;> rfl

@[simp] theorem selectTexture_mHitTick (s : SineRunnerMoblet) :
    (selectTexture s).mHitTick = s.mHitTick := by
  unfold selectTexture; split_ifs <;> rfl

@[simp] theorem selectTexture_mJumpTick (s : SineRunnerMoblet) :
    (selectTexture s).mJumpTick = s.mJumpTick := by
  unfold selectTexture; split_ifs <;> rfl

@[simp] theorem advanceCurve_mGLViewInitialized (sinF : ℚ → ℚ) (s : SineRunnerMoblet) :
    (advanceCurve sinF s).mGLViewInitialized = s.mGLViewInitialized := by
  rfl

@[simp] theorem advanceCurve_mXRes (sinF : ℚ → ℚ) (s : SineRunnerMoblet) :
    (advanceCurve sinF s).mXRes = s.mXRes := by
  rfl

@[simp] theorem advanceCurve_mCPos (sinF : ℚ → ℚ) (s : SineRunnerMoblet) :
    (advanceCurve sinF s).mCPos = s.mCPos := by
  rfl

@[simp] theorem advanceCurve_mCYPos (sinF : ℚ → ℚ) (s : SineRunnerMoblet) :
    (advanceCurve sinF s).mCYPos = s.mCYPos := by
  rfl

@[simp] theorem advanceCurve_mScreenIsPressed (sinF : ℚ → ℚ) (s : SineRunnerMoblet) :
    (advanceCurve sinF s).mScreenIsPressed = s.mScreenIsPressed := by
  rfl

@[simp] theorem advanceCurve_mEnemyPoints (sinF : ℚ → ℚ) (s : SineRunnerMoblet) :
    (advanceCurve sinF s).mEnemyPoints = s.mEnemyPoints := by
  rfl

@[simp] theorem advanceCurve_mHitTimes (sinF : ℚ → ℚ) (s : SineRunnerMoblet) :
    (advanceCurve sinF s).mHitTimes = s.mHitTimes := by
  rfl

@[simp] theorem advanceCurve_mDead (sinF : ℚ → ℚ) (s : SineRunnerMoblet) :
    (advanceCurve sinF s).mDead = s.mDead := by
  rfl

@[simp] theorem advanceCurve_mFinished (sinF : ℚ → ℚ) (s : SineRunnerMoblet) :
    (advanceCurve sinF s).mFinished = s.mFinished := by
  rfl

@[simp] theorem advanceCurve_mNumTicks (sinF : ℚ → ℚ) (s : SineRunnerMoblet) :
    (advanceCurve sinF s).mNumTicks = s.mNumTicks := by
  rfl

@[simp] theorem advanceCurve_mHitTick (sinF : ℚ → ℚ) (s : SineRunnerMoblet) :
    (advanceCurve sinF s).mHitTick = s.mHitTick := by
  rfl

@[simp] theorem advanceCurve_mJumpTick (sinF : ℚ → ℚ) (s : SineRunnerMoblet) :
    (advanceCurve sinF s).mJumpTick = s.mJumpTick := by
  rfl

@[simp] theorem advanceCurve_boundTexture (sinF : ℚ → ℚ) (s : SineRunnerMoblet) :
    (advanceCurve sinF s).boundTexture = s.boundTexture := by
  rfl

@[simp] theorem placeEnemy_mGLViewInitialized (sinF : ℚ → ℚ) (s : SineRunnerMoblet) (r : Nat) :
    (placeEnemy sinF s r).mGLViewInitialized = s.mGLViewInitialized := by
  unfold placeEnemy; split_ifs <;> rfl

@[simp] theorem placeEnemy_mXRes (sinF : ℚ → ℚ) (s : SineRunnerMoblet) (r : Nat) :
    (placeEnemy sinF s r).mXRes = s.mXRes := by
  unfold placeEnemy; split_ifs <;> rfl

@[simp] theorem placeEnemy_mX (sinF : ℚ → ℚ) (s : SineRunnerMoblet) (r : Nat) :
    (placeEnemy sinF s r).mX = s.mX := by
  unfold placeEnemy; split_ifs <;> rfl

@[simp] theorem placeEnemy_mTime (sinF : ℚ → ℚ) (s : SineRunnerMoblet) (r : Nat) :
    (placeEnemy sinF s r).mTime = s.mTime := by
  unfold placeEnemy; split_ifs <;> rfl

@[simp] theorem placeEnemy_mCPos (sinF : ℚ → ℚ) (s : SineRunnerMoblet) (r : Nat) :
    (placeEnemy sinF s r).mCPos = s.mCPos := by
  unfold placeEnemy; split_ifs <;> rfl

@[simp] theorem placeEnemy_mCYPos (sinF : ℚ → ℚ) (s : SineRunnerMoblet) (r : Nat) :
    (placeEnemy sinF s r).mCYPos = s.mCYPos := by
  unfold placeEnemy; split_ifs <;> rfl

@[simp] theorem placeEnemy_mMaxPoint (sinF : ℚ → ℚ) (s : SineRunnerMoblet) (r : Nat) :
    (placeEnemy sinF s r).mMaxPoint = s.mMaxPoint := by
  unfold placeEnemy; split_ifs <;> rfl

@[simp] theorem placeEnemy_mScreenIsPressed (sinF : ℚ → ℚ) (s : SineRunnerMoblet) (r : Nat) :
    (placeEnemy sinF s r).mScreenIsPressed = s.mScreenIsPressed := by
  unfold placeEnemy; split_ifs <;> rfl

@[simp] theorem placeEnemy_mCurvePoints (sinF : ℚ → ℚ) (s : SineRunnerMoblet) (r : Nat) :
    (placeEnemy sinF s r).mCurvePoints = s.mCurvePoints := by
  unfold placeEnemy; split_ifs <;> rfl

@[simp] theorem placeEnemy_mHitTimes (sinF : ℚ → ℚ) (s : SineRunnerMoblet) (r : Nat) :
    (placeEnemy sinF s r).mHitTimes = s.mHitTimes := by
  unfold placeEnemy; split_ifs <;> rfl

@[simp] theorem placeEnemy_mDead (sinF : ℚ → ℚ) (s : SineRunnerMoblet) (r : Nat) :
    (placeEnemy sinF s r).mDead = s.mDead := by
  unfold placeEnemy; split_ifs <;> rfl

@[simp] theorem placeEnemy_mFinished (sinF : ℚ → ℚ) (s : SineRunnerMoblet) (r : Nat) :
    (placeEnemy sinF s r).mFinished = s.mFinished := by
  unfold placeEnemy; split_ifs <;> rfl

@[simp] theorem placeEnemy_mNumTicks (sinF : ℚ → ℚ) (s : SineRunnerMoblet) (r : Nat) :
    (placeEnemy sinF s r).mNumTicks = s.mNumTicks := by
  unfold placeEnemy; split_ifs <;> rfl

@[simp] theorem placeEnemy_mHitTick (sinF : ℚ → ℚ) (s : SineRunnerMoblet) (r : Nat) :
    (placeEnemy sinF s r).mHitTick = s.mHitTick := by
  unfold placeEnemy; split_ifs <;> rfl

@[simp] theorem placeEnemy_mJumpTick (sinF : ℚ → ℚ) (s : SineRunnerMoblet) (r : Nat) :
    (placeEnemy sinF s r).mJumpTick = s.mJumpTick := by
  unfold placeEnemy; split_ifs <;> rfl

@[simp] theorem placeEnemy_boundTexture (sinF : ℚ → ℚ) (s : SineRunnerMoblet) (r : Nat) :
    (placeEnemy sinF s r).boundTexture = s.boundTexture := by
  unfold placeEnemy; split_ifs <;> rfl

@[simp] theorem collisionCheck_mGLViewInitialized (s : SineRunnerMoblet) (cPoint : ℚ × ℚ) :
    (collisionCheck s cPoint).mGLViewInitialized = s.mGLViewInitialized := by
  rw [collisionCheck_eq]

@[simp] theorem collisionCheck_mXRes (s : SineRunnerMoblet) (cPoint : ℚ × ℚ) :
    (collisionCheck s cPoint).mXRes = s.mXRes := by
  rw [collisionCheck_eq]

@[simp] theorem collisionCheck_mX (s : SineRunnerMoblet) (cPoint : ℚ × ℚ) :
    (collisionCheck s cPoint).mX = s.mX := by
  rw [collisionCheck_eq]

@[simp] theorem collisionCheck_mTime (s : SineRunnerMoblet) (cPoint : ℚ × ℚ) :
    (collisionCheck s cPoint).mTime = s.mTime := by
  rw [collisionCheck_eq]

@[simp] theorem collisionCheck_mCPos (s : SineRunnerMoblet) (cPoint : ℚ × ℚ) :
    (collisionCheck s cPoint).mCPos = s.mCPos := by
  rw [collisionCheck_eq]

@[simp] theorem collisionCheck_mCYPos (s : SineRunnerMoblet) (cPoint : ℚ × ℚ) :
    (collisionCheck s cPoint).mCYPos = s.mCYPos := by
  rw [collisionCheck_eq]

@[simp] theorem collisionCheck_mMaxPoint (s : SineRunnerMoblet) (cPoint : ℚ × ℚ) :
    (collisionCheck s cPoint).mMaxPoint = s.mMaxPoint := by
  rw [collisionCheck_eq]

@[simp] theorem collisionCheck_mScreenIsPressed (s : SineRunnerMoblet) (cPoint : ℚ × ℚ) :
    (collisionCheck s cPoint).mScreenIsPressed = s.mScreenIsPressed := by
  rw [collisionCheck_eq]

@[simp] theorem collisionCheck_mCurvePoints (s : SineRunnerMoblet) (cPoint : ℚ × ℚ) :
    (collisionCheck s cPoint).mCurvePoints = s.mCurvePoints := by
  rw [collisionCheck_eq]

@[simp] theorem collisionCheck_mEnemyPoints (s : SineRunnerMoblet) (cPoint : ℚ × ℚ) :
    (collisionCheck s cPoint).mEnemyPoints = s.mEnemyPoints := by
  rw [collisionCheck_eq]

@[simp] theorem collisionCheck_mDead (s : SineRunnerMoblet) (cPoint : ℚ × ℚ) :
    (collisionCheck s cPoint).mDead = s.mDead := by
  rw [collisionCheck_eq]

@[simp] theorem collisionCheck_mFinished (s : SineRunnerMoblet) (cPoint : ℚ × ℚ) :
    (collisionCheck s cPoint).mFinished = s.mFinished := by
  rw [collisionCheck_eq]

@[simp] theorem collisionCheck_mNumTicks (s : SineRunnerMoblet) (cPoint : ℚ × ℚ) :
    (collisionCheck s cPoint).mNumTicks = s.mNumTicks := by
  rw [collisionCheck_eq]

@[simp] theorem collisionCheck_mJumpTick (s : SineRunnerMoblet) (cPoint : ℚ × ℚ) :
    (collisionCheck s cPoint).mJumpTick = s.mJumpTick := by
  rw [collisionCheck_eq]

@[simp] theorem collisionCheck_boundTexture (s : SineRunnerMoblet) (cPoint : ℚ × ℚ) :
    (collisionCheck s cPoint).boundTexture = s.boundTexture := by
  rw [collisionCheck_eq]

@[simp] theorem beforeDraw_mGLViewInitialized (s : SineRunnerMoblet) :
    (beforeDraw s).mGLViewInitialized = s.mGLViewInitialized := by
  simp [beforeDraw]

@[simp] theorem beforeDraw_mXRes (s : SineRunnerMoblet) :
    (beforeDraw s).mXRes = s.mXRes := by
  simp [beforeDraw]

@[simp] theorem beforeDraw_mX (s : SineRunnerMoblet) :
    (beforeDraw s).mX = s.mX := by
  simp [beforeDraw]

@[simp] theorem beforeDraw_mTime (s : SineRunnerMoblet) :
    (beforeDraw s).mTime = s.mTime := by
  simp [beforeDraw]

@[simp] theorem beforeDraw_mCYPos (s : SineRunnerMoblet) :
    (beforeDraw s).mCYPos = s.mCYPos := by
  simp [beforeDraw]

@[simp] theorem beforeDraw_mMaxPoint (s : SineRunnerMoblet) :
    (beforeDraw s).mMaxPoint = s.mMaxPoint := by
  simp [beforeDraw]

@[simp] theorem beforeDraw_mScreenIsPressed (s : SineRunnerMoblet) :
    (beforeDraw s).mScreenIsPressed = s.mScreenIsPressed := by
  simp [beforeDraw]

@[simp] theorem beforeDraw_mCurvePoints (s : SineRunnerMoblet) :
    (beforeDraw s).mCurvePoints = s.mCurvePoints := by
  simp [beforeDraw]

@[simp] theorem beforeDraw_mEnemyPoints (s : SineRunnerMoblet) :
    (beforeDraw s).mEnemyPoints = s.mEnemyPoints := by
  simp [beforeDraw]

@[simp] theorem beforeDraw_mHitTimes (s : SineRunnerMoblet) :
    (beforeDraw s).mHitTimes = s.mHitTimes := by
  simp [beforeDraw]

@[simp] theorem beforeDraw_mDead (s : SineRunnerMoblet) :
    (beforeDraw s).mDead = s.mDead := by
  simp [beforeDraw]

@[simp] theorem beforeDraw_mFinished (s : SineRunnerMoblet) :
    (beforeDraw s).mFinished = s.mFinished := by
  simp [beforeDraw]

@[simp] theorem beforeDraw_mHitTick (s : SineRunnerMoblet) :
    (beforeDraw s).mHitTick = s.mHitTick := by
  simp [beforeDraw]

@[simp] theorem beforeDraw_mJumpTick (s : SineRunnerMoblet) :
    (beforeDraw s).mJumpTick = s.mJumpTick := by
  simp [beforeDraw]

@[simp] theorem beforeDraw_boundTexture (s : SineRunnerMoblet) :
    (beforeDraw s).boundTexture = s.boundTexture := by
  simp [beforeDraw]

/-! ## What one tick does -/

theorem beforeCollision_hit (sinF : ℚ → ℚ) (s : SineRunnerMoblet) (r : Nat) :
    (beforeCollision sinF s r).mHitTimes = s.mHitTimes ∧
    (beforeCollision sinF s r).mHitTick = s.mHitTick ∧
    (beforeCollision sinF s r).mNumTicks = s.mNumTicks := by
  simp [beforeCollision]

theorem drawBody_eq (sinF : ℚ → ℚ) (s : SineRunnerMoblet) (r : Nat) :
    drawBody sinF s r =
      collisionCheck (beforeCollision sinF s r) (characterPoint sinF (beforeCollision sinF s r)) :=
  rfl

@[simp] theorem beforeDraw_mNumTicks (s : SineRunnerMoblet) :
    (beforeDraw s).mNumTicks = s.mNumTicks + 1 := by
  simp [beforeDraw]

@[simp] theorem beforeDraw_mCPos (s : SineRunnerMoblet) :
    (beforeDraw s).mCPos = (holdMove s).mCPos := rfl

theorem holdMove_of_not_pressed (s : SineRunnerMoblet) (h : s.mScreenIsPressed = false) :
    holdMove s = s := by
  simp [holdMove, h]

theorem runTimerEvent_of_terminal (sinF : ℚ → ℚ) (s : SineRunnerMoblet) (r : Nat)
    (h : s.mDead = true ∨ s.mFinished = true) :
    runTimerEvent sinF s r = some (beforeDraw s) := by
  unfold runTimerEvent
  rcases h with h | h <;> simp [h]

theorem runTimerEvent_of_playing (sinF : ℚ → ℚ) (s : SineRunnerMoblet) (r : Nat)
    (hg : s.mGLViewInitialized = true) (hd : s.mDead = false) (hf : s.mFinished = false)
    (hr : r ≠ 0) :
    runTimerEvent sinF s r = some (drawBody sinF (beforeDraw s) r) := by
  unfold runTimerEvent draw
  simp [hg, hd, hf, hr]

theorem draw_cases (sinF : ℚ → ℚ) (s s1 : SineRunnerMoblet) (r : Nat)
    (h : draw sinF s r = some s1) : s1 = s ∨ s1 = drawBody sinF s r := by
  unfold draw at h
  split_ifs at h
  · exact Or.inl (Option.some.inj h).symm
  · exact Or.inr (Option.some.inj h).symm

theorem selectTexture_mDead_of_true (s : SineRunnerMoblet) (h : s.mDead = true) :
    (selectTexture s).mDead = true := by
  unfold selectTexture
  split_ifs <;> simp [h]

theorem selectTexture_mFinished_of_true (s : SineRunnerMoblet) (h : s.mFinished = true) :
    (selectTexture s).mFinished = true := by
  unfold selectTexture
  split_ifs <;> simp [h]

@[simp] theorem drawBody_mDead (sinF : ℚ → ℚ) (s : SineRunnerMoblet) (r : Nat) :
    (drawBody sinF s r).mDead = (selectTexture (jumpArc s)).mDead := by
  simp [drawBody]

@[simp] theorem drawBody_mFinished (sinF : ℚ → ℚ) (s : SineRunnerMoblet) (r : Nat) :
    (drawBody sinF s r).mFinished = (selectTexture (jumpArc s)).mFinished := by
  simp [drawBody]

@[simp] theorem drawBody_mCPos (sinF : ℚ → ℚ) (s : SineRunnerMoblet) (r : Nat) :
    (drawBody sinF s r).mCPos = (selectTexture (jumpArc s)).mCPos := by
  simp [drawBody]

@[simp] theorem drawBody_boundTexture (sinF : ℚ → ℚ) (s : SineRunnerMoblet) (r : Nat) :
    (drawBody sinF s r).boundTexture = (selectTexture (jumpArc s)).boundTexture := by
  simp [drawBody]

@[simp] theorem drawBody_mCYPos (sinF : ℚ → ℚ) (s : SineRunnerMoblet) (r : Nat) :
    (drawBody sinF s r).mCYPos = (jumpArc s).mCYPos := by
  simp [drawBody]

@[simp] theorem drawBody_mMaxPoint (sinF : ℚ → ℚ) (s : SineRunnerMoblet) (r : Nat) :
    (drawBody sinF s r).mMaxPoint =
      if sineFormula sinF s.mXRes (s.mX + 1 / 10) > s.mMaxPoint
      then sineFormula sinF s.mXRes (s.mX + 1 / 10) else s.mMaxPoint := by
  simp [drawBody, advanceCurve]

@[simp] theorem drawBody_mTime (sinF : ℚ → ℚ) (s : SineRunnerMoblet) (r : Nat) :
    (drawBody sinF s r).mTime = (s.mTime + 1) % 2 ^ 32 := by
  simp [drawBody, advanceCurve]

@[simp] theorem drawBody_mCurvePoints (sinF : ℚ → ℚ) (s : SineRunnerMoblet) (r : Nat) :
    (drawBody sinF s r).mCurvePoints =
      Function.update s.mCurvePoints ((s.mTime + 1) % 2 ^ 32 % 1600)
        (sineFormula sinF s.mXRes (s.mX + 1 / 10), (s.mX + 1 / 10) / curveLen) := by
  simp [drawBody, advanceCurve]

@[simp] theorem drawBody_mEnemyPoints (sinF : ℚ → ℚ) (s : SineRunnerMoblet) (r : Nat) :
    (drawBody sinF s r).mEnemyPoints =
      if (s.mTime + 1) % 2 ^ 32 < 100 ∧ (s.mTime + 1) % 2 ^ 32 > 0 then
        Function.update s.mEnemyPoints ((s.mTime + 1) % 2 ^ 32 % 100)
          (sineFormula sinF s.mXRes (enemyHorizontal r ((s.mTime + 1) % 2 ^ 32)),
            enemyHorizontal r ((s.mTime + 1) % 2 ^ 32) / curveLen)
      else s.mEnemyPoints := by
  simp only [drawBody, collisionCheck_mEnemyPoints, placeEnemy, advanceCurve_mEnemyPoints,
    selectTexture_mEnemyPoints, jumpArc_mEnemyPoints, advanceCurve_mXRes, selectTexture_mXRes,
    jumpArc_mXRes]
  have ht : (advanceCurve sinF (selectTexture (jumpArc s))).mTime = (s.mTime + 1) % 2 ^ 32 := by
    simp [advanceCurve]
  rw [ht]
  split_ifs <;> simp

@[simp] theorem drawBody_mGLViewInitialized (sinF : ℚ → ℚ) (s : SineRunnerMoblet) (r : Nat) :
    (drawBody sinF s r).mGLViewInitialized = s.mGLViewInitialized := by
  simp [drawBody]

@[simp] theorem drawBody_mXRes (sinF : ℚ → ℚ) (s : SineRunnerMoblet) (r : Nat) :
    (drawBody sinF s r).mXRes = s.mXRes := by
  simp [drawBody]

@[simp] theorem drawBody_mScreenIsPressed (sinF : ℚ → ℚ) (s : SineRunnerMoblet) (r : Nat) :
    (drawBody sinF s r).mScreenIsPressed = s.mScreenIsPressed := by
  simp [drawBody]

@[simp] theorem drawBody_mNumTicks (sinF : ℚ → ℚ) (s : SineRunnerMoblet) (r : Nat) :
    (drawBody sinF s r).mNumTicks = s.mNumTicks := by
  simp [drawBody]

@[simp] theorem drawBody_mJumpTick (sinF : ℚ → ℚ) (s : SineRunnerMoblet) (r : Nat) :
    (drawBody sinF s r).mJumpTick = s.mJumpTick := by
  simp [drawBody]

@[simp] theorem drawBody_mX (sinF : ℚ → ℚ) (s : SineRunnerMoblet) (r : Nat) :
    (drawBody sinF s r).mX = s.mX + 1 / 10 := by
  simp [drawBody, advanceCurve]

theorem selectTexture_beforeDraw_of_cooldown (s : SineRunnerMoblet)
    (h : s.mNumTicks + 1 < s.mHitTick + 5) :
    (selectTexture (jumpArc (beforeDraw s))).mDead = s.mDead ∧
    (selectTexture (jumpArc (beforeDraw s))).boundTexture = 1 := by
  have hc : (jumpArc (beforeDraw s)).mHitTick + 5 > (jumpArc (beforeDraw s)).mNumTicks := by
    simpa using h
  unfold selectTexture
  rw [if_pos hc]
  simp

theorem selectTexture_beforeDraw_of_hits (s : SineRunnerMoblet)
    (h : s.mHitTick + 5 ≤ s.mNumTicks + 1) (hh : 4 < s.mHitTimes) :
    (selectTexture (jumpArc (beforeDraw s))).mDead = true ∧
    (selectTexture (jumpArc (beforeDraw s))).boundTexture = 2 := by
  have hc : ¬ (jumpArc (beforeDraw s)).mHitTick + 5 > (jumpArc (beforeDraw s)).mNumTicks := by
    simpa using h
  have hh1 : (jumpArc (beforeDraw s)).mHitTimes > 4 := by
    simpa using hh
  unfold selectTexture
  rw [if_neg hc, if_pos hh1]
  simp

theorem selectTexture_beforeDraw_of_throttle (s : SineRunnerMoblet)
    (hp : s.mScreenIsPressed = false) (ht : s.mTime ≤ 900)
    (hc : s.mHitTick + 5 ≤ s.mNumTicks + 1) (hh : s.mHitTimes ≤ 4)
    (hm : s.mCPos + 378 ≤ s.mMaxPoint) :
    selectTexture (jumpArc (beforeDraw s)) =
      { jumpArc (beforeDraw s) with mCPos := mCPosStart, boundTexture := 4 } := by
  have h1 : ¬ (jumpArc (beforeDraw s)).mHitTick + 5 > (jumpArc (beforeDraw s)).mNumTicks := by
    simpa using hc
  have h2 : ¬ (jumpArc (beforeDraw s)).mHitTimes > 4 := by
    simpa using hh
  have h3 : ¬ (jumpArc (beforeDraw s)).mCPos + 400 - 22 > (jumpArc (beforeDraw s)).mMaxPoint := by
    simp only [jumpArc_mCPos, jumpArc_mMaxPoint, beforeDraw_mCPos, beforeDraw_mMaxPoint,
      holdMove_of_not_pressed s hp, not_lt]
    linarith
  have h4 : ¬ (jumpArc (beforeDraw s)).mTime > 900 := by
    simpa using ht
  unfold selectTexture
  rw [if_neg h1, if_neg h2, if_neg h3, if_neg h4]

theorem step_mEnemyPoints_of_late (sinF : ℚ → ℚ) (s s1 : SineRunnerMoblet) (e : Event)
    (ht : 99 ≤ s.mTime) (hw : s.mTime < 2 ^ 32) (h : step sinF s e = some s1) :
    s1.mEnemyPoints = s.mEnemyPoints := by
  have hdraw : ∀ (t t1 : SineRunnerMoblet) (r : Nat), 99 ≤ t.mTime → t.mTime < 2 ^ 32 →
      draw sinF t r = some t1 → t1.mEnemyPoints = t.mEnemyPoints := by
    intro t t1 r h99 hlt hd
    rcases draw_cases sinF t t1 r hd with h1 | h1
    · rw [h1]
    · rw [h1, drawBody_mEnemyPoints]
      rw [if_neg]
      intro hc
      by_cases hw : t.mTime + 1 < 2 ^ 32
      · rw [Nat.mod_eq_of_lt hw] at hc
        omega
      · have h2 : t.mTime + 1 = 2 ^ 32 := by omega
        rw [h2, Nat.mod_self] at hc
        omega
  cases e with
  | glViewReady r => exact hdraw { s with mGLViewInitialized := true } s1 r ht hw h
  | timer r =>
    simp only [step, runTimerEvent] at h
    split_ifs at h
    · have := hdraw _ _ r (by simpa using ht) (by simpa using hw) h
      simpa using this
    · rw [← Option.some.inj h]
      simp
  | press p =>
    simp only [step, Option.some.injEq] at h
    rw [← h]
    unfold pointerPressEvent
    simp only
    split_ifs <;> rfl
  | release p =>
    simp only [step, Option.some.injEq] at h
    rw [← h]
    unfold pointerReleaseEvent
    simp only
    split_ifs <;> rfl

theorem step_mTime_of_no_reset (sinF : ℚ → ℚ) (s s1 : SineRunnerMoblet) (e : Event)
    (hn : ∀ p, e = Event.press p → s.mDead = false ∧ s.mFinished = false)
    (h : step sinF s e = some s1) :
    s1.mTime = s.mTime ∨ s1.mTime = (s.mTime + 1) % 2 ^ 32 := by
  have hdraw : ∀ (t t1 : SineRunnerMoblet) (r : Nat), draw sinF t r = some t1 →
      t1.mTime = t.mTime ∨ t1.mTime = (t.mTime + 1) % 2 ^ 32 := by
    intro t t1 r hd
    rcases draw_cases sinF t t1 r hd with h1 | h1
    · exact Or.inl (by rw [h1])
    · exact Or.inr (by rw [h1, drawBody_mTime])
  cases e with
  | glViewReady r => exact hdraw { s with mGLViewInitialized := true } s1 r h
  | timer r =>
    simp only [step, runTimerEvent] at h
    split_ifs at h
    · have := hdraw _ _ r h
      simpa using this
    · rw [← Option.some.inj h]
      exact Or.inl (by simp)
  | press p =>
    obtain ⟨hd, hf⟩ := hn p rfl
    simp only [step, Option.some.injEq] at h
    rw [← h]
    left
    simp [pointerPressEvent, hd, hf]
  | release p =>
    simp only [step, Option.some.injEq] at h
    rw [← h]
    left
    unfold pointerReleaseEvent
    simp only
    split_ifs <;> rfl

theorem run_mEnemyPoints_of_late (sinF : ℚ → ℚ) (evs : List Event) :
    ∀ (s s1 : SineRunnerMoblet), 99 ≤ s.mTime → s.mTime + evs.length < 2 ^ 32 →
      noReset sinF s evs = true → run sinF s evs = some s1 →
      s1.mEnemyPoints = s.mEnemyPoints := by
  induction evs with
  | nil =>
    intro s s1 _ _ _ h
    simp only [run, Option.some.injEq] at h
    rw [h]
  | cons e es ih =>
    intro s s1 ht hw hn h
    simp only [List.length_cons] at hw
    simp only [run] at h
    cases hs : step sinF s e with
    | none => simp [hs] at h
    | some s2 =>
      rw [hs, Option.some_bind] at h
      simp only [noReset, hs, Bool.and_eq_true] at hn
      have hpress : ∀ p, e = Event.press p → s.mDead = false ∧ s.mFinished = false := by
        intro p hp
        subst hp
        simpa using hn.1
      have h2 := step_mEnemyPoints_of_late sinF s s2 e ht (by omega) hs
      have ht2 : s2.mTime = s.mTime ∨ s2.mTime = (s.mTime + 1) % 2 ^ 32 :=
        step_mTime_of_no_reset sinF s s2 e hpress hs
      rw [Nat.mod_eq_of_lt (by omega : s.mTime + 1 < 2 ^ 32)] at ht2
      have h3 := ih s2 s1 (by omega) (by omega) hn.2 h
      rw [h3, h2]

theorem sineFormula_ge (sinF : ℚ → ℚ) (hb : ∀ x, -1 ≤ sinF x ∧ sinF x ≤ 1) (x : ℚ) :
    308 ≤ sineFormula sinF 1440 x := by
  have h := (hb x).1
  unfold sineFormula
  push_cast
  linarith

theorem enemyHorizontal_one (t : Nat) : enemyHorizontal 1 t = 50 := by
  simp [enemyHorizontal, Nat.mod_one]

theorem qualifyingSlots_eq_zero (enemy : Nat → ℚ × ℚ) (c : ℚ × ℚ)
    (h : ∀ i, withinFive (enemy i) c = false) : qualifyingSlots enemy c = 0 := by
  unfold qualifyingSlots
  rw [List.length_eq_zero, List.filter_eq_nil_iff]
  intro i _
  simp [h i]

theorem five_le_qualifyingSlots (enemy : Nat → ℚ × ℚ) (c : ℚ × ℚ)
    (h : ∀ i, 1 ≤ i → i ≤ 5 → withinFive (enemy i) c = true) :
    5 ≤ qualifyingSlots enemy c := by
  unfold qualifyingSlots
  rw [← List.countP_eq_length_filter]
  have hsub : List.Sublist (List.range 6) (List.range 100) :=
    List.range_sublist.mpr (by norm_num)
  have hle := hsub.countP_le (fun i => withinFive (enemy i) c)
  have h6 : List.countP (fun i => withinFive (enemy i) c) (List.range 6) ≥ 5 := by
    have e : List.range 6 = [0, 1, 2, 3, 4, 5] := by decide
    rw [e]
    simp only [List.countP_cons, List.countP_nil, h 1 (by norm_num) (by norm_num),
      h 2 (by norm_num) (by norm_num), h 3 (by norm_num) (by norm_num),
      h 4 (by norm_num) (by norm_num), h 5 (by norm_num) (by norm_num)]
    simp
  omega

theorem drawBody_hits (sinF : ℚ → ℚ) (s : SineRunnerMoblet) (r : Nat) :
    (drawBody sinF s r).mHitTimes = s.mHitTimes +
      qualifyingSlots (drawBody sinF s r).mEnemyPoints
        (characterPoint sinF (beforeCollision sinF s r)) ∧
    (drawBody sinF s r).mHitTick =
      if 0 < qualifyingSlots (drawBody sinF s r).mEnemyPoints
        (characterPoint sinF (beforeCollision sinF s r))
      then s.mNumTicks else s.mHitTick := by
  obtain ⟨b1, b2, b3⟩ := beforeCollision_hit sinF s r
  have he : (drawBody sinF s r).mEnemyPoints = (beforeCollision sinF s r).mEnemyPoints := by
    rw [drawBody_eq, collisionCheck_mEnemyPoints]
  rw [he]
  rw [drawBody_eq, collisionCheck_eq]
  exact ⟨by rw [← b1], by rw [← b2, ← b3]⟩

theorem characterPoint_beforeCollision (sinF : ℚ → ℚ) (s : SineRunnerMoblet) (r : Nat) :
    characterPoint sinF (beforeCollision sinF s r) =
      (sineFormula sinF s.mXRes (s.mX + 1 / 10 + (selectTexture (jumpArc s)).mCPos) +
          (jumpArc s).mCYPos,
        (s.mX + 1 / 10 + (selectTexture (jumpArc s)).mCPos) / curveLen) := by
  simp [characterPoint, beforeCollision, advanceCurve]

theorem selectTexture_at_launch (t : SineRunnerMoblet) (hc : t.mCPos = -100)
    (hm : 278 ≤ t.mMaxPoint) (hf : t.mFinished = false) :
    (selectTexture t).mCPos = -100 ∧ (selectTexture t).mFinished = false ∧
    ((selectTexture t).mDead = true ↔
      (t.mDead = true ∨ (t.mHitTick + 5 ≤ t.mNumTicks ∧ 4 < t.mHitTimes))) := by
  unfold selectTexture
  split_ifs with c1 c2 c3 c4
  · refine ⟨hc, hf, ?_⟩
    constructor
    · intro h
      exact Or.inl h
    · rintro (h | h)
      · exact h
      · omega
  · refine ⟨hc, hf, ?_⟩
    constructor
    · intro _
      exact Or.inr ⟨by omega, by omega⟩
    · intro _
      rfl
  · exfalso
    rw [hc] at c3
    linarith
  · refine ⟨hc, hf, ?_⟩
    constructor
    · intro h
      exact Or.inl h
    · rintro (h | h)
      · exact h
      · omega
  · refine ⟨rfl, hf, ?_⟩
    constructor
    · intro h
      exact Or.inl h
    · rintro (h | h)
      · exact h
      · omega

theorem quiet_mDead (sinF : ℚ → ℚ) (n : Nat) (s : SineRunnerMoblet) (h : Quiet sinF n s)
    (h2 : n ≤ 1504) : s.mDead = false := by
  by_cases hn : n ≤ 1499
  · exact (h.before hn).2.2
  · have hiff := (h.after (by omega)).2.2
    cases hd : s.mDead
    · rfl
    · have := hiff.mp hd
      omega

theorem quiet_enemy_next (sinF : ℚ → ℚ) (n : Nat) (s : SineRunnerMoblet) (h : Quiet sinF n s)
    (h2 : n ≤ 1504) :
    (drawBody sinF (beforeDraw s) 1).mEnemyPoints =
      if n + 1 < 100 then
        Function.update s.mEnemyPoints (n + 1) (sineFormula sinF 1440 50, 5000)
      else s.mEnemyPoints := by
  have hm : (n + 1) % 2 ^ 32 = n + 1 := Nat.mod_eq_of_lt (by omega)
  rw [drawBody_mEnemyPoints, beforeDraw_mTime, beforeDraw_mXRes, beforeDraw_mEnemyPoints,
    h.time, h.xres, hm, enemyHorizontal_one]
  have h50 : (50 : ℚ) / curveLen = 5000 := by norm_num [curveLen]
  rw [h50]
  by_cases hlt : n + 1 < 100
  · rw [if_pos ⟨hlt, by omega⟩, if_pos hlt, Nat.mod_eq_of_lt hlt]
  · rw [if_neg (fun hc => hlt hc.1), if_neg hlt]

theorem quiet_jump_next (sinF : ℚ → ℚ) (n : Nat) (s : SineRunnerMoblet) (h : Quiet sinF n s)
    (h16 : 16 ≤ n) : (jumpArc (beforeDraw s)).mCYPos = 0 := by
  have h1 : ¬ (beforeDraw s).mJumpTick + 8 > (beforeDraw s).mNumTicks := by
    rw [beforeDraw_mJumpTick, beforeDraw_mNumTicks, h.jump, h.ticks]
    omega
  have h2 : ¬ (beforeDraw s).mJumpTick + 16 > (beforeDraw s).mNumTicks := by
    rw [beforeDraw_mJumpTick, beforeDraw_mNumTicks, h.jump, h.ticks]
    omega
  unfold jumpArc
  rw [if_neg h1, if_neg h2]

theorem quiet_select_next (sinF : ℚ → ℚ) (n : Nat) (s : SineRunnerMoblet) (h : Quiet sinF n s)
    (h2 : n ≤ 1504) :
    (selectTexture (jumpArc (beforeDraw s))).mCPos = -100 ∧
    (selectTexture (jumpArc (beforeDraw s))).mFinished = false ∧
    ((selectTexture (jumpArc (beforeDraw s))).mDead = true ↔
      (s.mHitTick + 5 ≤ n ∧ 4 < s.mHitTimes)) := by
  have hd := quiet_mDead sinF n s h h2
  have hc : (jumpArc (beforeDraw s)).mCPos = -100 := by
    rw [jumpArc_mCPos, beforeDraw_mCPos, holdMove_of_not_pressed s h.pressed, h.cpos]
  have hm : 278 ≤ (jumpArc (beforeDraw s)).mMaxPoint := by
    rw [jumpArc_mMaxPoint, beforeDraw_mMaxPoint]
    exact h.maxp
  have hf : (jumpArc (beforeDraw s)).mFinished = false := by
    rw [jumpArc_mFinished, beforeDraw_mFinished]
    exact h.fin
  obtain ⟨a1, a2, a3⟩ := selectTexture_at_launch (jumpArc (beforeDraw s)) hc hm hf
  refine ⟨a1, a2, ?_⟩
  rw [a3, jumpArc_mDead, beforeDraw_mDead, jumpArc_mHitTick, beforeDraw_mHitTick,
    jumpArc_mNumTicks, beforeDraw_mNumTicks, jumpArc_mHitTimes, beforeDraw_mHitTimes, hd, h.ticks]
  constructor
  · rintro (h0 | h0)
    · exact Bool.noConfusion h0
    · exact ⟨by omega, h0.2⟩
  · intro h0
    exact Or.inr ⟨by omega, h0.2⟩

theorem quiet_point_next (sinF : ℚ → ℚ) (n : Nat) (s : SineRunnerMoblet) (h : Quiet sinF n s)
    (h2 : n ≤ 1504) :
    characterPoint sinF (beforeCollision sinF (beforeDraw s) 1) =
      (sineFormula sinF 1440 (((n : ℚ) + 1) / 10 - 100) + (jumpArc (beforeDraw s)).mCYPos,
        10 * ((n : ℚ) + 1) - 10000) := by
  rw [characterPoint_beforeCollision, (quiet_select_next sinF n s h h2).1, beforeDraw_mX,
    beforeDraw_mXRes, h.xpos, h.xres]
  have e1 : (n : ℚ) / 10 + 1 / 10 + -100 = ((n : ℚ) + 1) / 10 - 100 := by ring
  have e2 : (((n : ℚ) + 1) / 10 - 100) / curveLen = 10 * ((n : ℚ) + 1) - 10000 := by
    unfold curveLen
    ring
  rw [e1, e2]

theorem quiet_no_hit (sinF : ℚ → ℚ) (hb : ∀ x, -1 ≤ sinF x ∧ sinF x ≤ 1) (n : Nat)
    (s : SineRunnerMoblet) (h : Quiet sinF n s) (h2 : n ≤ 1504) (hne : n + 1 ≠ 1500) :
    qualifyingSlots (drawBody sinF (beforeDraw s) 1).mEnemyPoints
      (characterPoint sinF (beforeCollision sinF (beforeDraw s) 1)) = 0 := by
  apply qualifyingSlots_eq_zero
  intro i
  rw [quiet_point_next sinF n s h h2]
  have hE : (drawBody sinF (beforeDraw s) 1).mEnemyPoints i = (0, 0) ∨
      ((drawBody sinF (beforeDraw s) 1).mEnemyPoints i).2 = 5000 := by
    rw [quiet_enemy_next sinF n s h h2]
    split_ifs
    · by_cases hi : i = n + 1
      · subst hi
        right
        simp
      · rw [Function.update_noteq hi]
        exact h.enemy i
    · exact h.enemy i
  unfold withinFive
  rw [decide_eq_false_iff_not]
  rintro ⟨⟨v1, _⟩, ⟨p1, p2⟩⟩
  rcases hE with hE | hE
  · rw [hE] at v1 p1 p2
    simp only [zero_sub] at v1 p1 p2
    by_cases hk : n + 1 = 1000
    · have hn : (n : ℚ) + 1 = 1000 := by exact_mod_cast hk
      have hj := quiet_jump_next sinF n s h (by omega)
      rw [hj] at v1
      have := sineFormula_ge sinF hb (((n : ℚ) + 1) / 10 - 100)
      linarith
    · rcases Nat.lt_or_gt_of_ne hk with hlt | hgt
      · have : (n : ℚ) + 1 ≤ 999 := by exact_mod_cast (by omega : n + 1 ≤ 999)
        linarith
      · have : (1001 : ℚ) ≤ (n : ℚ) + 1 := by exact_mod_cast (by omega : 1001 ≤ n + 1)
        linarith
  · rw [hE] at p1 p2
    rcases Nat.lt_or_gt_of_ne hne with hlt | hgt
    · have : (n : ℚ) + 1 ≤ 1499 := by exact_mod_cast (by omega : n + 1 ≤ 1499)
      linarith
    · have : (1501 : ℚ) ≤ (n : ℚ) + 1 := by exact_mod_cast (by omega : 1501 ≤ n + 1)
      linarith

theorem quiet_hit (sinF : ℚ → ℚ) (s : SineRunnerMoblet) (h : Quiet sinF 1499 s) :
    5 ≤ qualifyingSlots (drawBody sinF (beforeDraw s) 1).mEnemyPoints
      (characterPoint sinF (beforeCollision sinF (beforeDraw s) 1)) := by
  apply five_le_qualifyingSlots
  intro i h1 h5
  rw [quiet_point_next sinF 1499 s h (by norm_num), quiet_jump_next sinF 1499 s h (by norm_num),
    quiet_enemy_next sinF 1499 s h (by norm_num)]
  rw [if_neg (by norm_num), h.placed i h1 (by omega) (by omega)]
  have e1 : (((1499 : Nat) : ℚ) + 1) / 10 - 100 = 50 := by norm_num
  rw [e1]
  unfold withinFive
  rw [decide_eq_true_iff]
  norm_num

theorem quiet_step (sinF : ℚ → ℚ) (hb : ∀ x, -1 ≤ sinF x ∧ sinF x ≤ 1) (n : Nat)
    (s : SineRunnerMoblet) (h : Quiet sinF n s) (h1 : 1 ≤ n) (h2 : n ≤ 1504) :
    ∃ s1, runTimerEvent sinF s 1 = some s1 ∧ Quiet sinF (n + 1) s1 := by
  have hd := quiet_mDead sinF n s h h2
  refine ⟨drawBody sinF (beforeDraw s) 1,
    runTimerEvent_of_playing sinF s 1 h.gl hd h.fin (by decide), ?_⟩
  obtain ⟨q1, q2, q3⟩ := quiet_select_next sinF n s h h2
  obtain ⟨t1, t2⟩ := drawBody_hits sinF (beforeDraw s) 1
  rw [beforeDraw_mHitTimes] at t1
  rw [beforeDraw_mNumTicks, beforeDraw_mHitTick] at t2
  have hE := quiet_enemy_next sinF n s h h2
  constructor
  · rw [drawBody_mGLViewInitialized, beforeDraw_mGLViewInitialized]
    exact h.gl
  · rw [drawBody_mXRes, beforeDraw_mXRes]
    exact h.xres
  · rw [drawBody_mFinished]
    exact q2
  · rw [drawBody_mScreenIsPressed, beforeDraw_mScreenIsPressed]
    exact h.pressed
  · rw [drawBody_mTime, beforeDraw_mTime, h.time]
    exact Nat.mod_eq_of_lt (by omega)
  · rw [drawBody_mX, beforeDraw_mX, h.xpos]
    push_cast
    ring
  · rw [drawBody_mNumTicks, beforeDraw_mNumTicks, h.ticks]
    push_cast
    ring
  · rw [drawBody_mCPos]
    exact q1
  · rw [drawBody_mJumpTick, beforeDraw_mJumpTick]
    exact h.jump
  · rw [drawBody_mMaxPoint, beforeDraw_mMaxPoint]
    split_ifs with hc
    · exact le_trans h.maxp (le_of_lt hc)
    · exact h.maxp
  · intro h17
    rw [drawBody_mCYPos]
    exact quiet_jump_next sinF n s h (by omega)
  · intro i
    rw [hE]
    split_ifs
    · by_cases hi : i = n + 1
      · subst hi
        right
        simp
      · rw [Function.update_noteq hi]
        exact h.enemy i
    · exact h.enemy i
  · intro i hi1 hi2 hi3
    rw [hE]
    split_ifs with hlt
    · by_cases hi : i = n + 1
      · subst hi
        simp
      · rw [Function.update_noteq hi]
        exact h.placed i hi1 (by omega) hi3
    · exact h.placed i hi1 (by omega) hi3
  · intro hn
    obtain ⟨b1, b2, b3⟩ := h.before (by omega)
    have hq := quiet_no_hit sinF hb n s h h2 (by omega)
    rw [hq] at t1 t2
    refine ⟨by rw [t1, b1]; rfl, by rw [t2, if_neg (by norm_num), b2], ?_⟩
    rw [drawBody_mDead]
    cases hsel : (selectTexture (jumpArc (beforeDraw s))).mDead
    · rfl
    · have := (q3.mp hsel).2
      rw [b1] at this
      omega
  · intro hn
    by_cases hcoll : n = 1499
    · subst hcoll
      obtain ⟨b1, b2, b3⟩ := h.before (by norm_num)
      have hq := quiet_hit sinF s h
      refine ⟨by rw [t1, b1]; omega, ?_, ?_⟩
      · rw [t2, if_pos (by omega), h.ticks]
        norm_num
      · rw [drawBody_mDead, q3, b1]
        constructor
        · intro h0
          omega
        · intro h0
          omega
    · obtain ⟨a1, a2, a3⟩ := h.after (by omega)
      have hq := quiet_no_hit sinF hb n s h h2 (by omega)
      rw [hq] at t1 t2
      refine ⟨by rw [t1]; simpa using a1, by rw [t2, if_neg (by norm_num), a2], ?_⟩
      rw [drawBody_mDead, q3, a2]
      constructor
      · intro h0
        omega
      · intro h0
        exact ⟨by omega, by omega⟩

theorem quiet_run (sinF : ℚ → ℚ) (hb : ∀ x, -1 ≤ sinF x ∧ sinF x ≤ 1) (k : Nat) :
    ∀ (n : Nat) (s : SineRunnerMoblet), Quiet sinF n s → 1 ≤ n → n + k ≤ 1505 →
      ∃ s1, run sinF s (List.replicate k (Event.timer 1)) = some s1 ∧ Quiet sinF (n + k) s1 := by
  induction k with
  | zero =>
    intro n s h _ _
    exact ⟨s, rfl, h⟩
  | succ k ih =>
    intro n s h h1 h2
    obtain ⟨s1, e1, q1⟩ := quiet_step sinF hb n s h h1 (by omega)
    obtain ⟨s2, e2, q2⟩ := ih (n + 1) s1 q1 (by omega) (by omega)
    refine ⟨s2, ?_, ?_⟩
    · rw [List.replicate_succ]
      simp only [run, step, e1, Option.some_bind]
      exact e2
    · have : n + (k + 1) = n + 1 + k := by omega
      rw [this]
      exact q2

theorem quiet_first (sinF : ℚ → ℚ) (hb : ∀ x, -1 ≤ sinF x ∧ sinF x ≤ 1) :
    ∃ s, customEvent sinF largeScreen 1 = some s ∧ Quiet sinF 1 s := by
  have hev : customEvent sinF largeScreen 1 =
      some (drawBody sinF { largeScreen with mGLViewInitialized := true } 1) := by
    simp [customEvent, draw]
  refine ⟨_, hev, ?_⟩
  have hsel : selectTexture (jumpArc { largeScreen with mGLViewInitialized := true }) =
      { jumpArc { largeScreen with mGLViewInitialized := true } with boundTexture := 1 } := by
    unfold selectTexture
    rw [if_pos]
    rw [jumpArc_mHitTick, jumpArc_mNumTicks]
    decide
  have hE : (drawBody sinF { largeScreen with mGLViewInitialized := true } 1).mEnemyPoints =
      Function.update (fun _ => ((0 : ℚ), (0 : ℚ))) 1 (sineFormula sinF 1440 50, 5000) := by
    have h50 : (50 : ℚ) / curveLen = 5000 := by norm_num [curveLen]
    have h1 : ((0 : ℕ) + 1) % 2 ^ 32 = 1 := by norm_num
    rw [drawBody_mEnemyPoints]
    simp only [largeScreen, construct, h1]
    rw [if_pos (by norm_num), enemyHorizontal_one, h50]
  have hP : characterPoint sinF
      (beforeCollision sinF { largeScreen with mGLViewInitialized := true } 1) =
      (sineFormula sinF 1440 (1 / 10 - 100) +
        (jumpArc { largeScreen with mGLViewInitialized := true }).mCYPos, -9990) := by
    rw [characterPoint_beforeCollision, hsel]
    simp only [jumpArc_mCPos, largeScreen, construct, mCPosStart, curveLen]
    norm_num
  have hQ : qualifyingSlots
      (drawBody sinF { largeScreen with mGLViewInitialized := true } 1).mEnemyPoints
      (characterPoint sinF
        (beforeCollision sinF { largeScreen with mGLViewInitialized := true } 1)) = 0 := by
    apply qualifyingSlots_eq_zero
    intro i
    rw [hP, hE]
    unfold withinFive
    rw [decide_eq_false_iff_not]
    rintro ⟨_, ⟨_, p2⟩⟩
    by_cases hi : i = 1
    · subst hi
      simp only [Function.update_same] at p2
      norm_num at p2
    · rw [Function.update_noteq hi] at p2
      norm_num at p2
  obtain ⟨t1, t2⟩ := drawBody_hits sinF { largeScreen with mGLViewInitialized := true } 1
  rw [hQ] at t1 t2
  constructor
  · rw [drawBody_mGLViewInitialized]
  · rw [drawBody_mXRes]
    rfl
  · rw [drawBody_mFinished, hsel]
    rw [jumpArc_mFinished]
    rfl
  · rw [drawBody_mScreenIsPressed]
    rfl
  · rw [drawBody_mTime]
    rfl
  · rw [drawBody_mX]
    simp [largeScreen, construct]
  · rw [drawBody_mNumTicks]
    rfl
  · rw [drawBody_mCPos, hsel]
    rw [jumpArc_mCPos]
    rfl
  · rw [drawBody_mJumpTick]
    rfl
  · rw [drawBody_mMaxPoint]
    have hs := sineFormula_ge sinF hb (0 + 1 / 10)
    have hx : ({ largeScreen with mGLViewInitialized := true } : SineRunnerMoblet).mXRes = 1440 := rfl
    have hx0 : ({ largeScreen with mGLViewInitialized := true } : SineRunnerMoblet).mX = 0 := rfl
    have hm0 : ({ largeScreen with mGLViewInitialized := true } : SineRunnerMoblet).mMaxPoint = 0 := rfl
    rw [hx, hx0, hm0]
    rw [if_pos (by linarith)]
    linarith
  · intro h17
    omega
  · intro i
    rw [hE]
    by_cases hi : i = 1
    · subst hi
      right
      simp
    · left
      rw [Function.update_noteq hi]
  · intro i hi1 hi2 _
    have hi : i = 1 := by omega
    subst hi
    rw [hE]
    simp
  · intro _
    refine ⟨by rw [t1]; rfl, by rw [t2, if_neg (by norm_num)]; rfl, ?_⟩
    rw [drawBody_mDead, hsel, jumpArc_mDead]
    rfl
  · intro h0
    omega

/-! ## The claims -/

/-- C1: the collision check adds to `mHitTimes` exactly the number of the 100
obstacle slots whose value difference and position difference from the player
point both lie strictly between -5 and 5; when that number is at least 1,
`mHitTick` becomes the current `mNumTicks`; when it is 0, `mHitTimes` and
`mHitTick` are unchanged. The last conjunct states the same for the collision
check as it runs inside one `draw`. -/
theorem collisionCheck_counts (s : SineRunnerMoblet) (cPoint : ℚ × ℚ) :
    ((collisionCheck s cPoint).mHitTimes = s.mHitTimes + qualifyingSlots s.mEnemyPoints cPoint ∧
      (collisionCheck s cPoint).mNumTicks = s.mNumTicks ∧
      (1 ≤ qualifyingSlots s.mEnemyPoints cPoint →
        (collisionCheck s cPoint).mHitTick = (collisionCheck s cPoint).mNumTicks) ∧
      (qualifyingSlots s.mEnemyPoints cPoint = 0 →
        (collisionCheck s cPoint).mHitTimes = s.mHitTimes ∧
        (collisionCheck s cPoint).mHitTick = s.mHitTick)) ∧
    ∀ (sinF : ℚ → ℚ) (r : Nat),
      (drawBody sinF s r).mHitTimes = s.mHitTimes +
        qualifyingSlots (beforeCollision sinF s r).mEnemyPoints
          (characterPoint sinF (beforeCollision sinF s r)) ∧
      (1 ≤ qualifyingSlots (beforeCollision sinF s r).mEnemyPoints
          (characterPoint sinF (beforeCollision sinF s r)) →
        (drawBody sinF s r).mHitTick = s.mNumTicks) ∧
      (qualifyingSlots (beforeCollision sinF s r).mEnemyPoints
          (characterPoint sinF (beforeCollision sinF s r)) = 0 →
        (drawBody sinF s r).mHitTimes = s.mHitTimes ∧
        (drawBody sinF s r).mHitTick = s.mHitTick) := by
  have key : ∀ (t : SineRunnerMoblet) (c : ℚ × ℚ),
      (collisionCheck t c).mHitTimes = t.mHitTimes + qualifyingSlots t.mEnemyPoints c ∧
      (collisionCheck t c).mNumTicks = t.mNumTicks ∧
      (1 ≤ qualifyingSlots t.mEnemyPoints c → (collisionCheck t c).mHitTick = t.mNumTicks) ∧
      (qualifyingSlots t.mEnemyPoints c = 0 →
        (collisionCheck t c).mHitTimes = t.mHitTimes ∧ (collisionCheck t c).mHitTick = t.mHitTick) := by
    intro t c
    rw [collisionCheck_eq]
    refine ⟨rfl, rfl, ?_, ?_⟩
    · intro h
      show (if 0 < qualifyingSlots t.mEnemyPoints c then t.mNumTicks else t.mHitTick) = t.mNumTicks
      rw [if_pos (by omega)]
    · intro h
      show t.mHitTimes + (qualifyingSlots t.mEnemyPoints c : Int) = t.mHitTimes ∧
        (if 0 < qualifyingSlots t.mEnemyPoints c then t.mNumTicks else t.mHitTick) = t.mHitTick
      rw [h]
      simp
  refine ⟨?_, ?_⟩
  · obtain ⟨h1, h2, h3, h4⟩ := key s cPoint
    exact ⟨h1, h2, fun h => by rw [h3 h, h2], h4⟩
  · intro sinF r
    obtain ⟨b1, b2, b3⟩ := beforeCollision_hit sinF s r
    obtain ⟨h1, _, h3, h4⟩ :=
      key (beforeCollision sinF s r) (characterPoint sinF (beforeCollision sinF s r))
    rw [drawBody_eq]
    rw [b1] at h1 h4
    rw [b3] at h3
    rw [b2] at h4
    exact ⟨h1, h3, h4⟩

/-- C2: in a state in which the player is dead or finished, every timer tick
and every release event leaves `mDead` and `mFinished` as they are, and so does
a `draw` started by the view-ready event; a press event performs `reset()`,
which clears both flags. -/
theorem terminal_flags_persist (sinF : ℚ → ℚ) (s : SineRunnerMoblet)
    (hterm : s.mDead = true ∨ s.mFinished = true) :
    (∀ r, ∃ s1, runTimerEvent sinF s r = some s1 ∧
      s1.mDead = s.mDead ∧ s1.mFinished = s.mFinished) ∧
    (∀ p, (pointerReleaseEvent s p).mDead = s.mDead ∧
      (pointerReleaseEvent s p).mFinished = s.mFinished) ∧
    (∀ r s1, customEvent sinF s r = some s1 →
      (s.mDead = true → s1.mDead = true) ∧ (s.mFinished = true → s1.mFinished = true)) ∧
    (∀ p, pointerPressEvent s p = reset { s with mTouchPoint := p, mScreenIsPressed := true } ∧
      (pointerPressEvent s p).mDead = false ∧ (pointerPressEvent s p).mFinished = false) := by
  refine ⟨?_, ?_, ?_, ?_⟩
  · intro r
    exact ⟨beforeDraw s, runTimerEvent_of_terminal sinF s r hterm, by simp, by simp⟩
  · intro p
    unfold pointerReleaseEvent
    split_ifs <;> exact ⟨rfl, rfl⟩
  · intro r s1 h
    rcases draw_cases sinF _ s1 r h with h1 | h1
    · subst h1
      exact ⟨fun h => h, fun h => h⟩
    · subst h1
      refine ⟨fun hd => ?_, fun hf => ?_⟩
      · rw [drawBody_mDead]
        exact selectTexture_mDead_of_true _ (by simpa using hd)
      · rw [drawBody_mFinished]
        exact selectTexture_mFinished_of_true _ (by simpa using hf)
  · intro p
    have h : pointerPressEvent s p = reset { s with mTouchPoint := p, mScreenIsPressed := true } := by
      unfold pointerPressEvent
      by_cases hd : s.mDead = true
      · simp [hd, reset]
      · have hf : s.mFinished = true := hterm.resolve_left hd
        simp [hd, hf]
    rw [h]
    exact ⟨rfl, rfl, rfl⟩

/-- Witness for C2 at the dead state `deadHeld`. -/
theorem terminal_flags_persist_witness :
    deadHeld.mDead = true ∧
    (∀ r, ∃ s1, runTimerEvent zeroSin deadHeld r = some s1 ∧
      s1.mDead = true ∧ s1.mFinished = false) ∧
    (pointerPressEvent deadHeld ⟨3, 4⟩).mDead = false :=
  ⟨rfl, (terminal_flags_persist zeroSin deadHeld (Or.inl rfl)).1,
    ((terminal_flags_persist zeroSin deadHeld (Or.inl rfl)).2.2.2 ⟨3, 4⟩).2.1⟩

/-- C3, as stated, fails: in the state `fourHits` a tick's collision check
brings `mHitTimes` from 4 to 5, and the very next tick is inside the hit
cooldown: it binds the hit texture and does not mark the player dead. -/
theorem next_tick_in_cooldown :
    fourHits.mHitTimes = 4 ∧ fourHits.mDead = false ∧ fourHits.mFinished = false ∧
    (run zeroSin fourHits [Event.timer 1]).map
      (fun s => (s.mHitTimes, s.mHitTick, s.mNumTicks, s.mDead, s.mFinished)) =
        some (5, 999, 999, false, false) ∧
    (run zeroSin fourHits [Event.timer 1, Event.timer 1]).map
      (fun s => (s.mHitTimes, s.mNumTicks, s.mDead, s.boundTexture)) =
        some (5, 1000, false, 1) := by
  decide!

/-- C3, amended: for a player neither dead nor finished with `mHitTimes` at
least 5, a tick marks the player dead exactly when the hit cooldown is over at
that tick (`mHitTick + 5 <= mNumTicks` after the increment). The tick that
directly follows the collision (`mHitTick = mNumTicks` before it) is inside the
cooldown: it binds the hit texture and leaves the player alive. -/
theorem dead_when_cooldown_over (sinF : ℚ → ℚ) (s : SineRunnerMoblet) (r : Nat)
    (hg : s.mGLViewInitialized = true) (hd : s.mDead = false) (hf : s.mFinished = false)
    (hr : r ≠ 0) (hh : 4 < s.mHitTimes) :
    ∃ s1, runTimerEvent sinF s r = some s1 ∧
      (s1.mDead = true ↔ s.mHitTick + 5 ≤ s.mNumTicks + 1) ∧
      (s.mHitTick + 5 ≤ s.mNumTicks + 1 → s1.boundTexture = 2) ∧
      (s.mHitTick = s.mNumTicks → s1.mDead = false ∧ s1.boundTexture = 1) := by
  refine ⟨_, runTimerEvent_of_playing sinF s r hg hd hf hr, ?_, ?_, ?_⟩
  · rw [drawBody_mDead]
    constructor
    · intro h1
      by_contra hc
      have := (selectTexture_beforeDraw_of_cooldown s (by omega)).1
      rw [this, hd] at h1
      exact Bool.noConfusion h1
    · intro h1
      exact (selectTexture_beforeDraw_of_hits s h1 hh).1
  · intro h1
    rw [drawBody_boundTexture]
    exact (selectTexture_beforeDraw_of_hits s h1 hh).2
  · intro h1
    rw [drawBody_mDead, drawBody_boundTexture]
    have := selectTexture_beforeDraw_of_cooldown s (by omega)
    exact ⟨by rw [this.1, hd], this.2⟩

/-- Witness for the amended C3: the state `fourHits` with a fifth hit counted
at tick 900. -/
theorem dead_when_cooldown_over_witness :
    ∃ s1, runTimerEvent zeroSin { fourHits with mHitTimes := 5, mHitTick := 900 } 1 = some s1 ∧
      (s1.mDead = true ↔ (900 : Int) + 5 ≤ 998 + 1) :=
  (dead_when_cooldown_over zeroSin { fourHits with mHitTimes := 5, mHitTick := 900 } 1
    rfl rfl rfl (by decide) (by decide)).imp fun _ h => ⟨h.1, h.2.1⟩

/-- C4, as stated, fails: in the dead state `deadHeld`, where the press latch
is still set, a timer tick moves `mCPos` from -100 to -100 + 0.04. -/
theorem terminal_tick_moves_offset :
    deadHeld.mDead = true ∧ deadHeld.mCPos = -100 ∧
    (runTimerEvent zeroSin deadHeld 1).map (fun s => s.mCPos) = some (-2499 / 25) := by
  refine ⟨rfl, rfl, ?_⟩
  rw [runTimerEvent_of_terminal zeroSin deadHeld 1 (Or.inl rfl)]
  simp [holdMove, deadHeld, midGame, construct, mCPosStart]
  norm_num

/-- C4, amended: in a state in which the player is dead or finished, a timer
tick increments `mNumTicks`, applies the held-press update to `mCPos` (plus or
minus 0.04 while the press latch is set, nothing when it is clear) and changes
no other member. -/
theorem terminal_tick_effect (sinF : ℚ → ℚ) (s : SineRunnerMoblet) (r : Nat)
    (hterm : s.mDead = true ∨ s.mFinished = true) :
    runTimerEvent sinF s r = some
      { s with
        mNumTicks := s.mNumTicks + 1
        mCPos :=
          if s.mScreenIsPressed = true then
            if (s.mTouchPoint.y : ℚ) < (s.mYRes : ℚ) / 2 then s.mCPos + 1 / 25 else s.mCPos - 1 / 25
          else s.mCPos } := by
  rw [runTimerEvent_of_terminal sinF s r hterm]
  unfold beforeDraw holdMove
  split_ifs <;> rfl

/-- Witness for the amended C4 at the dead state `deadHeld`. -/
theorem terminal_tick_effect_witness :
    runTimerEvent zeroSin deadHeld 7 = some
      { deadHeld with
        mNumTicks := deadHeld.mNumTicks + 1
        mCPos :=
          if deadHeld.mScreenIsPressed = true then
            if (deadHeld.mTouchPoint.y : ℚ) < (deadHeld.mYRes : ℚ) / 2 then deadHeld.mCPos + 1 / 25
            else deadHeld.mCPos - 1 / 25
          else deadHeld.mCPos } :=
  terminal_tick_effect zeroSin deadHeld 7 (Or.inl rfl)

/-- C5: `reset()` sets `mCPos` to its start value -100, clears `mDead` and
`mFinished`, sets `mHitTimes` and `mHitTick` to 0 and `inAir` to false, and
leaves the curve buffer, the obstacle buffer and `mMaxPoint` unchanged. -/
theorem reset_restores (s : SineRunnerMoblet) :
    (reset s).mCPos = -100 ∧ (reset s).mDead = false ∧ (reset s).mFinished = false ∧
    (reset s).mHitTimes = 0 ∧ (reset s).mHitTick = 0 ∧ (reset s).inAir = false ∧
    (reset s).mCurvePoints = s.mCurvePoints ∧ (reset s).mEnemyPoints = s.mEnemyPoints ∧
    (reset s).mMaxPoint = s.mMaxPoint :=
  ⟨rfl, rfl, rfl, rfl, rfl, rfl, rfl, rfl, rfl⟩

/-- C6, amended: the obstacle buffer is frozen as long as no `reset()` happens.
From a state with `mTime >= 99` (every later draw has `t >= 100`), a run in
which no press arrives while the player is dead or finished, and which is too
short for the 32-bit `mTime` to wrap, leaves every obstacle slot unchanged.
Press, release and `reset()` themselves never write the buffer. -/
theorem enemyPoints_frozen_until_reset (sinF : ℚ → ℚ) (evs : List Event)
    (s s1 : SineRunnerMoblet) (ht : 99 ≤ s.mTime) (hw : s.mTime + evs.length < 2 ^ 32)
    (hn : noReset sinF s evs = true) (h : run sinF s evs = some s1) :
    s1.mEnemyPoints = s.mEnemyPoints ∧
    (reset s).mEnemyPoints = s.mEnemyPoints ∧
    ∀ p, (pointerPressEvent s p).mEnemyPoints = s.mEnemyPoints ∧
      (pointerReleaseEvent s p).mEnemyPoints = s.mEnemyPoints := by
  refine ⟨run_mEnemyPoints_of_late sinF evs s s1 ht hw hn h, rfl, fun p => ⟨?_, ?_⟩⟩
  · unfold pointerPressEvent
    simp only
    split_ifs <;> rfl
  · unfold pointerReleaseEvent
    simp only
    split_ifs <;> rfl

/-- Witness for the amended C6: ticks, a press and a release in the state
`lateGame`, where `mTime = 150`. -/
theorem enemyPoints_frozen_until_reset_witness :
    ∃ s1, run zeroSin lateGame [Event.timer 1, Event.press ⟨10, 10⟩, Event.timer 2,
        Event.release ⟨10, 10⟩, Event.timer 3] = some s1 ∧
      s1.mEnemyPoints = lateGame.mEnemyPoints := by
  have hs : (run zeroSin lateGame [Event.timer 1, Event.press ⟨10, 10⟩, Event.timer 2,
      Event.release ⟨10, 10⟩, Event.timer 3]).isSome = true := by decide!
  obtain ⟨s1, h1⟩ := Option.isSome_iff_exists.mp hs
  exact ⟨s1, h1, (enemyPoints_frozen_until_reset zeroSin _ lateGame s1 (by decide) (by decide)
    (by decide!) h1).1⟩

/-- C6, as stated, fails. On a 1440 pixel wide screen, with every `rand()`
returning 1 and no pointer event, the view-ready draw and 1504 timer ticks
bring `mTime` to 1505 with the player dead (killed by the obstacles at
`ox = 50`, reached at `mTime = 1500`); slot 1 of the obstacle buffer then holds
position 5000. A press (which performs `reset()`, so `mTime = 0`) followed by
one tick with `rand()` returning 3 writes slot 1 again, with position 5100. -/
theorem enemyPoints_rewritten_after_reset :
    ∃ s2 s3,
      run zeroSin largeScreen (Event.glViewReady 1 :: List.replicate 1504 (Event.timer 1)) =
        some s2 ∧
      s2.mTime = 1505 ∧ s2.mDead = true ∧ s2.mEnemyPoints 1 = (720, 5000) ∧
      run zeroSin s2 [Event.press ⟨0, 0⟩, Event.timer 3] = some s3 ∧
      s3.mEnemyPoints 1 = (720, 5100) := by
  have hb : ∀ x, -1 ≤ zeroSin x ∧ zeroSin x ≤ 1 := fun _ => by norm_num [zeroSin]
  have h720 : ∀ x, sineFormula zeroSin 1440 x = 720 := fun _ => by norm_num [sineFormula, zeroSin]
  obtain ⟨s1, e1, q1⟩ := quiet_first zeroSin hb
  obtain ⟨s2, e2, q2⟩ := quiet_run zeroSin hb 1504 1 s1 q1 (le_refl 1) (by norm_num)
  have hdead : s2.mDead = true := (q2.after (by norm_num)).2.2.mpr (by norm_num)
  have hpress : pointerPressEvent s2 ⟨0, 0⟩ =
      reset { s2 with mTouchPoint := ⟨0, 0⟩, mScreenIsPressed := true } := by
    simp [pointerPressEvent, hdead, reset]
  have htick : runTimerEvent zeroSin (pointerPressEvent s2 ⟨0, 0⟩) 3 =
      some (drawBody zeroSin (beforeDraw (pointerPressEvent s2 ⟨0, 0⟩)) 3) := by
    apply runTimerEvent_of_playing
    · rw [hpress]
      exact q2.gl
    · rw [hpress]
      rfl
    · rw [hpress]
      rfl
    · decide
  have hptime : (pointerPressEvent s2 ⟨0, 0⟩).mTime = 0 := by
    rw [hpress]
    rfl
  have hpxres : (pointerPressEvent s2 ⟨0, 0⟩).mXRes = 1440 := by
    rw [hpress]
    exact q2.xres
  refine ⟨s2, drawBody zeroSin (beforeDraw (pointerPressEvent s2 ⟨0, 0⟩)) 3, ?_, q2.time, hdead,
    ?_, ?_, ?_⟩
  · show (step zeroSin largeScreen (Event.glViewReady 1)).bind
      (fun s => run zeroSin s (List.replicate 1504 (Event.timer 1))) = some s2
    rw [show step zeroSin largeScreen (Event.glViewReady 1) = some s1 from e1, Option.some_bind]
    exact e2
  · rw [q2.placed 1 (le_refl 1) (by norm_num) (by norm_num), h720]
  · simp only [run, step, Option.some_bind, htick]
  · have h1 : ((0 : ℕ) + 1) % 2 ^ 32 = 1 := by norm_num
    have h51 : enemyHorizontal 3 1 = 51 := by decide!
    rw [drawBody_mEnemyPoints, beforeDraw_mTime, beforeDraw_mXRes, beforeDraw_mEnemyPoints,
      hptime, hpxres, h1, if_pos (by norm_num), h51, h720]
    simp only [Function.update_same, Nat.one_mod, Prod.mk.injEq, true_and]
    norm_num [curveLen]

/-- C7, the code at the failing input. After the view-ready draw and 20 timer
ticks on a 1440 pixel wide screen the player is alive and grounded
(`mCYPos = 0`, `mNumTicks = 20`), and a release in the upper half of the screen
sets `mJumpTick` to 20. `mCYPos` then goes down by 18 on 7 ticks only (to
-126); the 8th tick already adds 18 (to -108, not -144), the 15th tick reaches
+18, and the 16th sets it to 0. The list gives `mCYPos` after 0, 1, ..., 16
ticks. -/
theorem jump_arc_after_release :
    (run zeroSin largeScreen warmUp).map
      (fun s => (s.inAir, s.mCYPos, s.mNumTicks, s.mDead, s.mFinished)) =
        some (false, 0, 20, false, false) ∧
    (run zeroSin largeScreen (warmUp ++ [Event.release ⟨10, 10⟩])).map
      (fun s => s.mJumpTick) = some 20 ∧
    (List.range 17).map (fun k =>
      (run zeroSin largeScreen
        (warmUp ++ Event.release ⟨10, 10⟩ :: List.replicate k (Event.timer 1))).map
        (fun s => s.mCYPos)) =
      [some 0, some (-18), some (-36), some (-54), some (-72), some (-90), some (-108),
        some (-126), some (-108), some (-90), some (-72), some (-54), some (-36), some (-18),
        some 0, some 18, some 0] := by
  decide!

/-- C8, as stated, fails: on a 320 pixel wide screen `mMaxPoint` never exceeds
`mCPos + 378 = 278`, no event is sent, and yet after the hit cooldown of the
first draws the fifth timer tick (at `mTime = 5`) takes the finish branch and
marks the player finished. -/
theorem small_screen_finishes :
    (∀ k ∈ List.range 6,
      (run zeroSin smallScreen (Event.glViewReady 1 :: List.replicate k (Event.timer 1))).map
        (fun s => decide (s.mMaxPoint ≤ s.mCPos + 378 ∧ s.mTime ≤ 899)) = some true) ∧
    (run zeroSin smallScreen (Event.glViewReady 1 :: List.replicate 4 (Event.timer 1))).map
      (fun s => (s.mTime, s.mFinished, s.mDead)) = some (5, false, false) ∧
    (run zeroSin smallScreen (Event.glViewReady 1 :: List.replicate 5 (Event.timer 1))).map
      (fun s => (s.mFinished, s.boundTexture)) = some (true, 3) := by
  decide!

/-- C8, amended: on a tick with `mTime <= 900`, no press held, the hit cooldown
over, at most 4 hits and `mMaxPoint` not below `mCPos + 378` (the finish test
`mCPos + 400 - 22 > mMaxPoint` fails), `draw` takes the launch-throttle branch:
it binds the throttle texture, sets `mCPos` to -100 and marks the player
neither dead nor finished. -/
theorem launch_throttle (sinF : ℚ → ℚ) (s : SineRunnerMoblet) (r : Nat)
    (hg : s.mGLViewInitialized = true) (hd : s.mDead = false) (hf : s.mFinished = false)
    (hr : r ≠ 0) (hp : s.mScreenIsPressed = false) (ht : s.mTime ≤ 900)
    (hc : s.mHitTick + 5 ≤ s.mNumTicks + 1) (hh : s.mHitTimes ≤ 4)
    (hm : s.mCPos + 378 ≤ s.mMaxPoint) :
    ∃ s1, runTimerEvent sinF s r = some s1 ∧ s1.boundTexture = 4 ∧ s1.mCPos = -100 ∧
      s1.mDead = false ∧ s1.mFinished = false := by
  refine ⟨_, runTimerEvent_of_playing sinF s r hg hd hf hr, ?_, ?_, ?_, ?_⟩
  · rw [drawBody_boundTexture, selectTexture_beforeDraw_of_throttle s hp ht hc hh hm]
  · rw [drawBody_mCPos, selectTexture_beforeDraw_of_throttle s hp ht hc hh hm]
    rfl
  · rw [drawBody_mDead, selectTexture_beforeDraw_of_throttle s hp ht hc hh hm]
    simpa using hd
  · rw [drawBody_mFinished, selectTexture_beforeDraw_of_throttle s hp ht hc hh hm]
    simpa using hf

/-- Witness for the amended C8: a tick in the state `midGame`. -/
theorem launch_throttle_witness :
    ∃ s1, runTimerEvent zeroSin midGame 1 = some s1 ∧ s1.boundTexture = 4 ∧ s1.mCPos = -100 ∧
      s1.mDead = false ∧ s1.mFinished = false :=
  launch_throttle zeroSin midGame 1 rfl rfl rfl (by decide) rfl (by decide) (by decide)
    (by decide) (by decide!)

/-- C9: `mMaxPoint` never decreases: after any event it is at least what it
was before, `reset()` leaves it unchanged, and after a timer tick that emits a
curve sample (view ready, player neither dead nor finished) it is at least that
sample's value, which is the value written to the curve buffer. -/
theorem maxPoint_monotone (sinF : ℚ → ℚ) (s s1 : SineRunnerMoblet) (e : Event)
    (h : step sinF s e = some s1) :
    s.mMaxPoint ≤ s1.mMaxPoint ∧ (reset s).mMaxPoint = s.mMaxPoint ∧
    ∀ r, e = Event.timer r → s.mGLViewInitialized = true → s.mDead = false →
      s.mFinished = false →
      s1.mCurvePoints (s1.mTime % 1600) =
        (sineFormula sinF s.mXRes (s.mX + 1 / 10), (s.mX + 1 / 10) / curveLen) ∧
      sineFormula sinF s.mXRes (s.mX + 1 / 10) ≤ s1.mMaxPoint := by
  have hbody : ∀ (t : SineRunnerMoblet) (r : Nat),
      t.mMaxPoint ≤ (drawBody sinF t r).mMaxPoint ∧
      sineFormula sinF t.mXRes (t.mX + 1 / 10) ≤ (drawBody sinF t r).mMaxPoint := by
    intro t r
    rw [drawBody_mMaxPoint]
    split_ifs with hc
    · exact ⟨le_of_lt hc, le_refl _⟩
    · exact ⟨le_refl _, not_lt.mp hc⟩
  have hdraw : ∀ (t t1 : SineRunnerMoblet) (r : Nat), draw sinF t r = some t1 →
      t.mMaxPoint ≤ t1.mMaxPoint := by
    intro t t1 r ht
    rcases draw_cases sinF t t1 r ht with h1 | h1
    · rw [h1]
    · rw [h1]
      exact (hbody t r).1
  refine ⟨?_, rfl, ?_⟩
  · cases e with
    | glViewReady r => exact hdraw { s with mGLViewInitialized := true } s1 r h
    | timer r =>
      simp only [step, runTimerEvent] at h
      split_ifs at h
      · have := hdraw _ _ r h
        simpa using this
      · rw [← Option.some.inj h]
        simp
    | press p =>
      simp only [step, Option.some.injEq] at h
      rw [← h]
      unfold pointerPressEvent
      simp only
      split_ifs <;> exact le_refl _
    | release p =>
      simp only [step, Option.some.injEq] at h
      rw [← h]
      unfold pointerReleaseEvent
      simp only
      split_ifs <;> exact le_refl _
  · intro r he hg hd hf
    subst he
    have hr : r ≠ 0 := by
      intro h0
      subst h0
      simp [step, runTimerEvent, draw, hg, hd, hf] at h
    simp only [step] at h
    rw [runTimerEvent_of_playing sinF s r hg hd hf hr] at h
    rw [← Option.some.inj h]
    refine ⟨?_, ?_⟩
    · rw [drawBody_mCurvePoints, drawBody_mTime]
      simp
    · simpa using (hbody (beforeDraw s) r).2

/-- Witness for C9: a timer tick in the state `midGame`. -/
theorem maxPoint_monotone_witness :
    ∃ s1, step zeroSin midGame (Event.timer 1) = some s1 ∧ midGame.mMaxPoint ≤ s1.mMaxPoint :=
  ⟨drawBody zeroSin (beforeDraw midGame) 1,
    runTimerEvent_of_playing zeroSin midGame 1 rfl rfl rfl (by decide),
    (maxPoint_monotone zeroSin midGame _ (Event.timer 1)
      (runTimerEvent_of_playing zeroSin midGame 1 rfl rfl rfl (by decide))).1⟩

/-- C10, the code at the failing input: the first draw (`mTime` becomes 1) with
`rand()` returning 3 computes `ox = (10 % 3) * 1 + 50 = 51` and writes position
`51 / 0.01 = 5100` to slot 1, where `(3 mod 10) * 1 + 50 = 53` would give 5300;
with `rand()` returning 0 the draw has no result. -/
theorem placement_takes_ten_mod_draw :
    enemyHorizontal 3 1 = 51 ∧
    (customEvent zeroSin largeScreen 3).map (fun s => (s.mTime, s.mEnemyPoints 1)) =
      some (1, (720, 5100)) ∧
    (((3 % 10) * 1 + 50 : Nat) : ℚ) / curveLen = 5300 ∧
    (customEvent zeroSin largeScreen 0).isSome = false := by
  decide!

end SineRunner
